import Mathlib

/-!
Shallow embedding of `LedCommanderParser.py`, the codec for the LED commander
console's 0x80200-byte configuration-file format.

Bytes are modelled as `Nat`; a file is a `List Nat`.  Python's sequential
`readfile.read(n)` is modelled by explicit state passing over the remaining
byte list: `read(n)` returns up to `n` bytes (never failing), while the
pattern `read(n)[k]` — which raises `IndexError` in Python when too few bytes
remain — is modelled by an `Option`-valued reader.  `int.to_bytes(w, "little")`
is modelled for in-range values; theorems carry the corresponding range
hypotheses.
-/

set_option maxHeartbeats 1000000
set_option maxRecDepth 4000

namespace LedCommander

/-- Model of `readfile.read(n)`: up to `n` bytes plus the remaining stream. -/
def readBytes (n : Nat) (s : List Nat) : List Nat × List Nat :=
  (s.take n, s.drop n)

/-- Model of `readfile.read(1)[0]`: `none` models Python's `IndexError` when the
stream is exhausted. -/
def readByte (s : List Nat) : Option (Nat × List Nat) :=
  match s with
  | [] => none
  | b :: rest => some (b, rest)

/-- Model of `raw = readfile.read(2); raw[0] + raw[1] * 256`: `none` models the
`IndexError` raised when fewer than two bytes remain. -/
def read16le (s : List Nat) : Option (Nat × List Nat) :=
  match s with
  | a :: b :: rest => some (a + b * 256, rest)
  | _ => none

/-- Model of `v.to_bytes(2, "little")` for `v < 65536`. -/
def write16le (v : Nat) : List Nat := [v % 256, v / 256]

/-- `Scene`: one lighting snapshot (`fixture_channel_values`,
`fixture_channel_active`, two mystery flag fields and `number_of_values`). -/
structure Scene where
  fixture_channel_values : List (List Nat)
  fixture_channel_active : List (List Bool)
  mystery_flags_1 : List Nat
  number_of_values : Nat
  mystery_flags_2 : List Nat
deriving Repr, DecidableEq

/-- `Scene.__init__`: 16×10 zero values, all-inactive flags, zeroed trailing
fields. -/
def Scene.default : Scene where
  fixture_channel_values := List.replicate 16 (List.replicate 10 0)
  fixture_channel_active := List.replicate 16 (List.replicate 10 false)
  mystery_flags_1 := [0, 0]
  number_of_values := 0
  mystery_flags_2 := [0]

/-- `m[f][c]` read access on the active matrix (out-of-range defaults to
`false`; every use in the codec is in range for a 16×10 matrix). -/
def getCell (m : List (List Bool)) (f c : Nat) : Bool :=
  (m.getD f []).getD c false

/-- `m[f][c] = v` on the active matrix. -/
def setCell (m : List (List Bool)) (f c : Nat) (v : Bool) : List (List Bool) :=
  m.set f ((m.getD f []).set c v)

/-- The active-bitmap loop of `Scene.parse_from`: for byte `byte_id` and bit
`bit_id`, the global bit index is `index = 8 * byte_id + bit_id`; the bit value
`byte & (1 << bit_id) != 0` is stored at `(fixture, channel) = divmod (index, 10)`
in a fresh all-`False` 16×10 matrix. -/
def parseActive (bs : List Nat) : List (List Bool) :=
  (List.range (8 * bs.length)).foldl
    (fun m i => setCell m (i / 10) (i % 10) (Nat.testBit (bs.getD (i / 8) 0) (i % 8)))
    (List.replicate 16 (List.replicate 10 false))

/-- The value-matrix loop of `Scene.parse_from`: `n` successive `read(10)`
calls, one row per fixture. -/
def readRows : Nat → List Nat → List (List Nat) × List Nat
  | 0, s => ([], s)
  | n + 1, s =>
    let (row, s1) := readBytes 10 s
    let (rows, s2) := readRows n s1
    (row :: rows, s2)

/-- `Scene.parse_from`: 16 × `read(10)` value rows, `read(20)` active bitmap,
`read(2)` flags, `read(1)[0]` value count (can raise), `read(1)` flags. -/
def Scene.parse_from (s : List Nat) : Option (Scene × List Nat) :=
  let (rows, s1) := readRows 16 s
  let (activeBytes, s2) := readBytes 20 s1
  let (flags1, s3) := readBytes 2 s2
  match readByte s3 with
  | none => none
  | some (nv, s4) =>
    let (flags2, s5) := readBytes 1 s4
    some ({ fixture_channel_values := rows,
            fixture_channel_active := parseActive activeBytes,
            mystery_flags_1 := flags1,
            number_of_values := nv,
            mystery_flags_2 := flags2 }, s5)

/-- The value loop of `Scene.serialize_to`: one byte per (fixture, channel),
row-major. -/
def Scene.writeValues (s : Scene) : List Nat :=
  ((List.range 16).map fun f => (List.range 10).map fun c =>
    (s.fixture_channel_values.getD f []).getD c 0).flatten

/-- One byte of the serialized active bitmap: the `value |= 1 << bit_id`
accumulation of `Scene.serialize_to`, with global bit index `8 * j + bit`. -/
def Scene.activeByte (s : Scene) (j : Nat) : Nat :=
  (List.range 8).foldl
    (fun value bit =>
      if getCell s.fixture_channel_active ((8 * j + bit) / 10) ((8 * j + bit) % 10)
      then value ||| (1 <<< bit) else value)
    0

/-- The 20 bytes of the serialized active bitmap. -/
def Scene.writeActive (s : Scene) : List Nat :=
  (List.range 20).map s.activeByte

/-- `Scene.serialize_to`: values, active bitmap, flags, value count, flags. -/
def Scene.serialize_to (s : Scene) : List Nat :=
  s.writeValues ++ s.writeActive ++ s.mystery_flags_1 ++ [s.number_of_values]
    ++ s.mystery_flags_2

/-- `Chase`: 2000 step-id slots plus the number of meaningful steps. -/
structure Chase where
  step_ids : List Nat
  step_count : Nat
deriving Repr, DecidableEq

/-- `Chase.__init__`. -/
def Chase.default : Chase where
  step_ids := List.replicate 2000 0
  step_count := 0

/-- DMX patch entry: `none` = unassigned (0xA2); `some (none, 11)` = Aux1
(0xA1); `some (none, 10)` = Aux2 (0xA0); `some (some f, c)` = fixture `f`,
channel `c`. -/
abbrev DmxAssignment := Option (Option Nat × Nat)

/-- Per-byte classification inside `_read_dmx_channel_assignments`. -/
def classifyDmx (b : Nat) : DmxAssignment :=
  if b = 0xA2 then none
  else if b = 0xA1 then some (none, 11)
  else if b = 0xA0 then some (none, 10)
  else some (some (b / 10), b % 10)

/-- Per-entry encoding inside `_write_dmx_channel_assignments` (the final
branch writes `assignment[0] * 10 + assignment[1]`). -/
def writeDmx : DmxAssignment → Nat
  | none => 0xA2
  | some (f, c) =>
    if c = 11 then 0xA1
    else if c = 10 then 0xA0
    else f.getD 0 * 10 + c

/-- Scene loop of `_read_scenes` (`n` records via `Scene.parse_from`;
a `none` — an uncaught `IndexError` — propagates out of the loop). -/
def readScenesList : Nat → List Nat → Option (List Scene × List Nat)
  | 0, s => some ([], s)
  | n + 1, s =>
    (Scene.parse_from s).bind fun a =>
      (readScenesList n a.2).bind fun b => some (a.1 :: b.1, b.2)

/-- `_read_names`: `n` records of 7 raw bytes each. -/
def readNames : Nat → List Nat → List (List Nat) × List Nat
  | 0, s => ([], s)
  | n + 1, s =>
    let (name, s1) := readBytes 7 s
    let (names, s2) := readNames n s1
    (name :: names, s2)

/-- `_read_dmx_channel_assignments`: `n` × (`read(1)[0]` then classify). -/
def readDmxList : Nat → List Nat → Option (List DmxAssignment × List Nat)
  | 0, s => some ([], s)
  | n + 1, s =>
    (readByte s).bind fun a =>
      (readDmxList n a.2).bind fun b => some (classifyDmx a.1 :: b.1, b.2)

/-- `_read_chase_info`: per chase, a 16-bit little-endian step count followed by
one reserved byte that is read and discarded whatever its value. -/
def readChaseInfo : Nat → List Nat → Option (List Chase × List Nat)
  | 0, s => some ([], s)
  | n + 1, s =>
    (read16le s).bind fun a =>
      (readChaseInfo n (readBytes 1 a.2).2).bind fun b =>
        some ({ Chase.default with step_count := a.1 } :: b.1, b.2)

/-- `n` consecutive 16-bit little-endian reads. -/
def read16List : Nat → List Nat → Option (List Nat × List Nat)
  | 0, s => some ([], s)
  | n + 1, s =>
    (read16le s).bind fun a =>
      (read16List n a.2).bind fun b => some (a.1 :: b.1, b.2)

/-- `_read_chase_step_assignments`: for each chase in order, 2000 step ids are
read and every entry of the chase's 2000-slot `step_ids` array is overwritten
(`step_count` is kept). -/
def readChaseStepAssignments : List Chase → List Nat → Option (List Chase × List Nat)
  | [], s => some ([], s)
  | ch :: rest, s =>
    (read16List 2000 s).bind fun a =>
      (readChaseStepAssignments rest a.2).bind fun b =>
        some ({ ch with step_ids := a.1 } :: b.1, b.2)

/-- `n` consecutive `read(1)[0]` reads (virtual-dimmer modes and flags). -/
def readByteList : Nat → List Nat → Option (List Nat × List Nat)
  | 0, s => some ([], s)
  | n + 1, s =>
    (readByte s).bind fun a =>
      (readByteList n a.2).bind fun b => some (a.1 :: b.1, b.2)

/-- `_read_virtual_dimmer_assignments`: 16 rows of 10 single-byte flags. -/
def readDimmerAssignments : Nat → List Nat → Option (List (List Nat) × List Nat)
  | 0, s => some ([], s)
  | n + 1, s =>
    (readByteList 10 s).bind fun a =>
      (readDimmerAssignments n a.2).bind fun b => some (a.1 :: b.1, b.2)

/-- `_read_mystery_dmx_info`: `n` single-byte reads whose values are
discarded (a short read does not fail — `read(1)` is never subscripted). -/
def skipBytes : Nat → List Nat → List Nat
  | 0, s => s
  | n + 1, s => skipBytes n (readBytes 1 s).2

/-- The decoded model held by `LedCommanderParser`. -/
structure LedCommanderParser where
  channel_names : List (List Nat)
  dmx_assignments : List DmxAssignment
  virtual_dimmer_modes : List Nat
  virtual_dimmer_assignments : List (List Nat)
  static_scenes : List Scene
  chase_steps : List Scene
  chases : List Chase
deriving Repr, DecidableEq

/-- Load outcomes: the two marker failures (`from_file` returns `None` after
logging) and `indexError`, modelling an uncaught Python `IndexError` from a
subscripted short read. -/
inductive LoadError where
  | invalidMagicNumber
  | invalidAcmeMarker
  | indexError
deriving Repr, DecidableEq

/-- `b"succeeded" + b"\x00" * 503`. -/
def magicBytes : List Nat :=
  [115, 117, 99, 99, 101, 101, 100, 101, 100] ++ List.replicate 503 0

/-- `b"acme\x00"`. -/
def acmeBytes : List Nat := [97, 99, 109, 101, 0]

/-- An uncaught `IndexError` from a short subscripted read aborts the whole
load. -/
def orIndexError : Option α → Except LoadError α
  | none => .error .indexError
  | some a => .ok a

/-- `LedCommanderParser.from_file`: the full load sequence.  The two marker
checks abort with no model; every other section is decoded unconditionally.
`_read_rest` consumes the remainder and its all-0xFF check is ignored, so the
trailing region never causes a failure. -/
def LedCommanderParser.from_file (input : List Nat) :
    Except LoadError LedCommanderParser :=
  if (readBytes 512 input).1 ≠ magicBytes then .error .invalidMagicNumber
  else
    (orIndexError (readScenesList 16 (readBytes 512 input).2)).bind fun statics =>
    (orIndexError (readScenesList 2000 statics.2)).bind fun steps =>
    let names := readNames 12 steps.2
    (orIndexError (readDmxList 512 names.2)).bind fun dmx =>
    (orIndexError (readChaseInfo 16 dmx.2)).bind fun chases0 =>
    let acme := readBytes 5 chases0.2
    if acme.1 ≠ acmeBytes then .error .invalidAcmeMarker
    else
      (orIndexError (readChaseStepAssignments chases0.1 (skipBytes 512 acme.2))).bind
        fun chases1 =>
      (orIndexError (readByteList 16 (readBytes 3 chases1.2).2)).bind fun modes =>
      (orIndexError (readDimmerAssignments 16 modes.2)).bind fun dimmer =>
      .ok { channel_names := names.1,
            dmx_assignments := dmx.1,
            virtual_dimmer_modes := modes.1,
            virtual_dimmer_assignments := dimmer.1,
            static_scenes := statics.1,
            chase_steps := steps.1,
            chases := chases1.1 }

/-- `_write_scenes`: 16 static scenes then 2000 chase-step scenes. -/
def writeScenes (p : LedCommanderParser) : List Nat :=
  ((List.range 16).map fun i => (p.static_scenes.getD i Scene.default).serialize_to).flatten
    ++ ((List.range 2000).map fun i => (p.chase_steps.getD i Scene.default).serialize_to).flatten

/-- `_write_names`: the 12 stored name records, raw. -/
def writeNames (p : LedCommanderParser) : List Nat :=
  ((List.range 12).map fun i => p.channel_names.getD i []).flatten

/-- `_write_dmx_channel_assignments`: one byte per DMX address. -/
def writeDmxSection (p : LedCommanderParser) : List Nat :=
  (List.range 512).map fun i => writeDmx (p.dmx_assignments.getD i none)

/-- `_write_chase_info`: per chase, little-endian step count plus the fixed
reserved byte `0x05`. -/
def writeChaseInfo (p : LedCommanderParser) : List Nat :=
  ((List.range 16).map fun i =>
    write16le (p.chases.getD i Chase.default).step_count ++ [5]).flatten

/-- `_write_chase_step_assignments`: 16 × 2000 little-endian step ids. -/
def writeChaseStepAssignments (p : LedCommanderParser) : List Nat :=
  ((List.range 16).map fun i =>
    ((List.range 2000).map fun j =>
      write16le ((p.chases.getD i Chase.default).step_ids.getD j 0)).flatten).flatten

/-- `_write_virtual_dimmer_modes`: one byte per fixture. -/
def writeVirtualDimmerModes (p : LedCommanderParser) : List Nat :=
  (List.range 16).map fun i => p.virtual_dimmer_modes.getD i 0

/-- `_write_virtual_dimmer_assignments`: 16 × 10 single-byte flags. -/
def writeVirtualDimmerAssignments (p : LedCommanderParser) : List Nat :=
  ((List.range 16).map fun f => (List.range 10).map fun c =>
    (p.virtual_dimmer_assignments.getD f []).getD c 0).flatten

/-- `_write_rest`: a single `0x00` then 88003 × `0xFF`. -/
def writeRest : List Nat := 0 :: List.replicate 88003 255

/-- `LedCommanderParser.to_file`: the full save sequence, fixed section order.
The unconfirmed regions are emitted as fixed constants (`0x05` reserved bytes,
512 × `0x02`, `0x4B 0x01 0x00`, the trailing `0x00` + `0xFF` run), not as the
originally read bytes. -/
def LedCommanderParser.to_file (p : LedCommanderParser) : List Nat :=
  magicBytes ++ writeScenes p ++ writeNames p ++ writeDmxSection p
    ++ writeChaseInfo p ++ acmeBytes ++ List.replicate 512 2
    ++ writeChaseStepAssignments p ++ [75, 1, 0]
    ++ writeVirtualDimmerModes p ++ writeVirtualDimmerAssignments p ++ writeRest

/-- Well-formed 16×10 boolean matrix. -/
def matrixOk (m : List (List Bool)) : Prop :=
  m.length = 16 ∧ ∀ row ∈ m, row.length = 10

/-- A scene whose fields are in range: 16×10 byte values, 16×10 active flags,
2 flag bytes, a byte-sized value count and 1 flag byte. -/
def sceneOk (s : Scene) : Prop :=
  s.fixture_channel_values.length = 16 ∧
  (∀ row ∈ s.fixture_channel_values, row.length = 10 ∧ ∀ v ∈ row, v < 256) ∧
  matrixOk s.fixture_channel_active ∧
  s.mystery_flags_1.length = 2 ∧ (∀ v ∈ s.mystery_flags_1, v < 256) ∧
  s.number_of_values < 256 ∧
  s.mystery_flags_2.length = 1 ∧ (∀ v ∈ s.mystery_flags_2, v < 256)

/-- A chase whose fields are in range. -/
def chaseOk (ch : Chase) : Prop :=
  ch.step_ids.length = 2000 ∧ (∀ v ∈ ch.step_ids, v < 65536) ∧ ch.step_count < 65536

/-- A DMX assignment whose encoding is a single byte. -/
def dmxOk : DmxAssignment → Prop
  | none => True
  | some (none, c) => c = 10 ∨ c = 11
  | some (some f, c) => c < 10 ∧ f * 10 + c < 256

/-- A DMX assignment within the spec's data model: fixture 0–15, channel 0–9,
or one of the aux/unassigned states. -/
def dmxInRange : DmxAssignment → Prop
  | none => True
  | some (none, c) => c = 10 ∨ c = 11
  | some (some f, c) => f < 16 ∧ c < 10

/-- A model whose fields all have the on-disk shapes and ranges. -/
def parserOk (p : LedCommanderParser) : Prop :=
  p.channel_names.length = 12 ∧ (∀ nm ∈ p.channel_names, nm.length = 7 ∧ ∀ v ∈ nm, v < 256) ∧
  p.dmx_assignments.length = 512 ∧ (∀ a ∈ p.dmx_assignments, dmxOk a) ∧
  p.virtual_dimmer_modes.length = 16 ∧ (∀ v ∈ p.virtual_dimmer_modes, v < 256) ∧
  p.virtual_dimmer_assignments.length = 16 ∧
  (∀ row ∈ p.virtual_dimmer_assignments, row.length = 10 ∧ ∀ v ∈ row, v < 256) ∧
  p.static_scenes.length = 16 ∧ (∀ sc ∈ p.static_scenes, sceneOk sc) ∧
  p.chase_steps.length = 2000 ∧ (∀ sc ∈ p.chase_steps, sceneOk sc) ∧
  p.chases.length = 16 ∧ (∀ ch ∈ p.chases, chaseOk ch)

/-- The model decoded from a file whose decoded sections are all zero bytes:
default scenes and chases, zeroed names, every DMX address patched to
fixture 0 channel 0 (byte `0x00`), zeroed dimmer data. -/
def zeroModel : LedCommanderParser where
  channel_names := List.replicate 12 (List.replicate 7 0)
  dmx_assignments := List.replicate 512 (some (some 0, 0))
  virtual_dimmer_modes := List.replicate 16 0
  virtual_dimmer_assignments := List.replicate 16 (List.replicate 10 0)
  static_scenes := List.replicate 16 Scene.default
  chase_steps := List.replicate 2000 Scene.default
  chases := List.replicate 16 Chase.default

/-- A full-size (0x80200-byte) file: both markers valid, every other byte
zero. -/
def zeroFile : List Nat :=
  magicBytes ++ List.replicate 371588 0 ++ acmeBytes ++ List.replicate 152695 0

/-- The 436796-byte prefix of `zeroFile`: all sections present but the
trailing region missing entirely. -/
def zeroFileShort : List Nat :=
  magicBytes ++ List.replicate 371588 0 ++ acmeBytes ++ List.replicate 64691 0

/-! ### Basic list and stream lemmas -/

theorem map_getD_range {α : Type} (l : List α) (d : α) :
    (List.range l.length).map (fun i => l.getD i d) = l := by
  apply List.ext_getElem (by simp)
  intro i h1 h2
  simp [List.getD_eq_getElem?_getD, List.getElem?_eq_getElem, h2]

theorem readBytes_append {n : Nat} {xs r : List Nat} (h : xs.length = n) :
    readBytes n (xs ++ r) = (xs, r) := by
  subst h
  simp [readBytes, List.take_append_of_le_length, List.drop_append_of_le_length]

theorem readBytes_take (n : Nat) (s : List Nat) :
    readBytes n s = (s.take n, s.drop n) := rfl

theorem readByte_cons (b : Nat) (s : List Nat) :
    readByte (b :: s) = some (b, s) := rfl

theorem readByte_of_length {s : List Nat} (h : 1 ≤ s.length) :
    readByte s = some (s.getD 0 0, s.drop 1) := by
  cases s with
  | nil => simp at h
  | cons b t => rfl

theorem read16le_of_length {s : List Nat} (h : 2 ≤ s.length) :
    read16le s = some (s.getD 0 0 + s.getD 1 0 * 256, s.drop 2) := by
  match s with
  | [] => simp at h
  | [a] => simp at h
  | a :: b :: t => rfl

theorem read16le_write16le (v : Nat) (r : List Nat) :
    read16le (write16le v ++ r) = some (v, r) := by
  simp [read16le, write16le, Nat.mod_add_div']

theorem skipBytes_eq_drop : ∀ (n : Nat) (s : List Nat), skipBytes n s = s.drop n
  | 0, s => by simp [skipBytes]
  | n + 1, s => by
    rw [skipBytes, skipBytes_eq_drop n]
    simp [readBytes, List.drop_drop, Nat.add_comm]

theorem readRows_snd : ∀ (n : Nat) (s : List Nat), (readRows n s).2 = s.drop (10 * n)
  | 0, s => by simp [readRows]
  | n + 1, s => by
    rw [readRows]
    simp only [readBytes, readRows_snd n, List.drop_drop]
    congr 1
    ring

theorem readRows_append : ∀ (rows : List (List Nat)) (r : List Nat),
    (∀ row ∈ rows, row.length = 10) →
    readRows rows.length (rows.flatten ++ r) = (rows, r)
  | [], r, _ => by simp [readRows]
  | row :: rest, r, h => by
    have hrow : row.length = 10 := h row (by simp)
    have hih := readRows_append rest r (fun q hq => h q (by simp [hq]))
    rw [List.length_cons, readRows, List.flatten_cons, List.append_assoc,
      readBytes_append hrow]
    simp [hih]

/-! ### Active-bitmap lemmas -/

theorem getD_eq_get {α : Type} (l : List α) (d : α) {i : Nat} (h : i < l.length) :
    l.getD i d = l[i] := by
  simp [List.getD_eq_getElem?_getD, List.getElem?_eq_getElem, h]

theorem getD_mem_of_lt {α : Type} (l : List α) (d : α) {i : Nat} (h : i < l.length) :
    l.getD i d ∈ l := by
  rw [getD_eq_get l d h]
  exact l.getElem_mem h

theorem getD_map_range {α : Type} (f : Nat → α) {n i : Nat} (h : i < n) (d : α) :
    ((List.range n).map f).getD i d = f i := by
  have hi : i < ((List.range n).map f).length := by simpa using h
  rw [getD_eq_get _ d hi]
  simp

theorem getD_replicate_self {α : Type} (n c : Nat) (a : α) :
    (List.replicate n a).getD c a = a := by
  simp only [List.getD_eq_getElem?_getD, List.getElem?_replicate]
  split <;> rfl

theorem testBit_orFold (g : Nat → Bool) :
    ∀ (n k : Nat),
      Nat.testBit ((List.range n).foldl (fun v b => if g b then v ||| (1 <<< b) else v) 0) k
        = (decide (k < n) && g k)
  | 0, k => by simp
  | n + 1, k => by
    rw [List.range_succ, List.foldl_append, List.foldl_cons, List.foldl_nil]
    by_cases hg : g n = true
    · rw [if_pos hg, Nat.testBit_lor, testBit_orFold g n k, Nat.shiftLeft_eq, one_mul,
        Nat.testBit_two_pow]
      by_cases hk : k = n
      · subst hk
        simp [hg]
      · have he : decide (k < n) = decide (k < n + 1) := by
          simp only [decide_eq_decide]
          omega
        simp [Ne.symm hk, he]
    · have hg' : g n = false := by simpa using hg
      rw [if_neg (by simp [hg']), testBit_orFold g n k]
      by_cases hk : k = n
      · subst hk
        simp [hg']
      · have he : decide (k < n) = decide (k < n + 1) := by
          simp only [decide_eq_decide]
          omega
        rw [he]

theorem testBit_activeByte (s : Scene) (j k : Nat) :
    Nat.testBit (s.activeByte j) k
      = (decide (k < 8)
          && getCell s.fixture_channel_active ((8 * j + k) / 10) ((8 * j + k) % 10)) :=
  testBit_orFold (fun bit => getCell s.fixture_channel_active ((8 * j + bit) / 10)
    ((8 * j + bit) % 10)) 8 k

theorem getD_set_self {α : Type} (l : List α) {i : Nat} (h : i < l.length) (a d : α) :
    (l.set i a).getD i d = a := by
  simp [List.getD_eq_getElem?_getD, List.getElem?_set_self h]

theorem getD_set_ne {α : Type} (l : List α) {i j : Nat} (h : i ≠ j) (a d : α) :
    (l.set i a).getD j d = l.getD j d := by
  simp [List.getD_eq_getElem?_getD, List.getElem?_set_ne h]

theorem getCell_empty (f c : Nat) :
    getCell (List.replicate 16 (List.replicate 10 false)) f c = false := by
  unfold getCell
  simp only [List.getD_eq_getElem?_getD, List.getElem?_replicate]
  by_cases h : f < 16
  · rw [if_pos h, Option.getD_some, List.getElem?_replicate]
    by_cases h' : c < 10
    · rw [if_pos h', Option.getD_some]
    · rw [if_neg h', Option.getD_none]
  · rw [if_neg h, Option.getD_none]
    simp

theorem matrixOk_empty : matrixOk (List.replicate 16 (List.replicate 10 false)) := by
  constructor
  · simp
  · intro row hr
    simp [List.eq_of_mem_replicate hr]

theorem matrixOk_setCell {m : List (List Bool)} (hm : matrixOk m) {f : Nat} (hf : f < 16)
    (c : Nat) (v : Bool) : matrixOk (setCell m f c v) := by
  obtain ⟨h1, h2⟩ := hm
  refine ⟨by simp [setCell, h1], ?_⟩
  intro row hr
  rcases List.mem_or_eq_of_mem_set hr with h | h
  · exact h2 row h
  · subst h
    rw [List.length_set]
    exact h2 _ (getD_mem_of_lt m [] (by omega))

theorem getCell_setCell_self {m : List (List Bool)} (hm : matrixOk m) {f c : Nat}
    (hf : f < 16) (hc : c < 10) (v : Bool) :
    getCell (setCell m f c v) f c = v := by
  obtain ⟨h1, h2⟩ := hm
  have hfm : f < m.length := by omega
  have hrow : (m.getD f []).length = 10 := h2 _ (getD_mem_of_lt m [] hfm)
  unfold getCell setCell
  rw [getD_set_self m hfm _ [], getD_set_self (m.getD f []) (by omega) v false]

theorem getCell_setCell_ne {m : List (List Bool)} (hm : matrixOk m) {f c f' c' : Nat}
    (hf : f < 16) (h : ¬(f = f' ∧ c = c')) (v : Bool) :
    getCell (setCell m f c v) f' c' = getCell m f' c' := by
  obtain ⟨h1, h2⟩ := hm
  unfold getCell setCell
  by_cases hff : f = f'
  · subst hff
    have hcc : c ≠ c' := fun hcc => h ⟨rfl, hcc⟩
    rw [getD_set_self m (by omega) _ []]
    rw [getD_set_ne (m.getD f []) hcc v false]
  · rw [getD_set_ne m hff _ []]

theorem matrixOk_parseFold (g : Nat → Bool) :
    ∀ (n : Nat), n ≤ 160 →
      matrixOk ((List.range n).foldl (fun m i => setCell m (i / 10) (i % 10) (g i))
        (List.replicate 16 (List.replicate 10 false)))
  | 0, _ => by simpa using matrixOk_empty
  | n + 1, h => by
    rw [List.range_succ, List.foldl_append, List.foldl_cons, List.foldl_nil]
    exact matrixOk_setCell (matrixOk_parseFold g n (by omega)) (by omega) _ _

theorem getCell_parseFold (g : Nat → Bool) :
    ∀ (n : Nat), n ≤ 160 → ∀ (f c : Nat), f < 16 → c < 10 →
      getCell ((List.range n).foldl (fun m i => setCell m (i / 10) (i % 10) (g i))
        (List.replicate 16 (List.replicate 10 false))) f c
        = if 10 * f + c < n then g (10 * f + c) else false
  | 0, _, f, c, hf, hc => by
    rw [if_neg (by omega)]
    simpa using getCell_empty f c
  | n + 1, h, f, c, hf, hc => by
    rw [List.range_succ, List.foldl_append, List.foldl_cons, List.foldl_nil]
    have hshape := matrixOk_parseFold g n (by omega)
    by_cases hn : 10 * f + c = n
    · have hf' : n / 10 = f := by omega
      have hc' : n % 10 = c := by omega
      rw [hf', hc', getCell_setCell_self hshape hf hc]
      rw [if_pos (by omega), hn]
    · rw [getCell_setCell_ne hshape (by omega) (by omega) _]
      rw [getCell_parseFold g n (by omega) f c hf hc]
      by_cases hlt : 10 * f + c < n
      · rw [if_pos hlt, if_pos (by omega)]
      · rw [if_neg hlt, if_neg (by omega)]

theorem parseActive_matrixOk {bs : List Nat} (h : bs.length = 20) :
    matrixOk (parseActive bs) := by
  unfold parseActive
  rw [h]
  exact matrixOk_parseFold _ 160 (by omega)

theorem getCell_parseActive {bs : List Nat} (h : bs.length = 20) {f c : Nat}
    (hf : f < 16) (hc : c < 10) :
    getCell (parseActive bs) f c
      = Nat.testBit (bs.getD ((10 * f + c) / 8) 0) ((10 * f + c) % 8) := by
  unfold parseActive
  rw [h]
  rw [getCell_parseFold _ 160 (by omega) f c hf hc, if_pos (by omega)]

theorem matrixOk_ext {m m' : List (List Bool)} (hm : matrixOk m) (hm' : matrixOk m')
    (h : ∀ f, f < 16 → ∀ c, c < 10 → getCell m f c = getCell m' f c) : m = m' := by
  obtain ⟨h1, h2⟩ := hm
  obtain ⟨h1', h2'⟩ := hm'
  apply List.ext_getElem (by omega)
  intro i hi hi'
  have hrow : m[i].length = 10 := h2 _ (m.getElem_mem hi)
  have hrow' : m'[i].length = 10 := h2' _ (m'.getElem_mem hi')
  apply List.ext_getElem (by omega)
  intro j hj hj'
  have hcell := h i (by omega) j (by rw [hrow] at hj; omega)
  unfold getCell at hcell
  rw [getD_eq_get m _ hi, getD_eq_get m' _ hi'] at hcell
  rw [getD_eq_get _ _ hj, getD_eq_get _ _ hj'] at hcell
  exact hcell

theorem writeActive_length (s : Scene) : s.writeActive.length = 20 := by
  simp [Scene.writeActive]

theorem parseActive_writeActive {s : Scene} (hact : matrixOk s.fixture_channel_active) :
    parseActive s.writeActive = s.fixture_channel_active := by
  apply matrixOk_ext (parseActive_matrixOk (writeActive_length s)) hact
  intro f hf c hc
  rw [getCell_parseActive (writeActive_length s) hf hc]
  have hi8 : (10 * f + c) / 8 < 20 := by omega
  rw [Scene.writeActive, getD_map_range _ hi8, testBit_activeByte]
  have he : 8 * ((10 * f + c) / 8) + (10 * f + c) % 8 = 10 * f + c := by omega
  rw [he]
  have h2 : (10 * f + c) / 10 = f := by omega
  have h3 : (10 * f + c) % 10 = c := by omega
  have h4 : (10 * f + c) % 8 < 8 := by omega
  simp [h2, h3, h4]

/-! ### Scene codec lemmas -/

theorem flatten_length_const {α : Type} :
    ∀ (L : List (List α)) (k : Nat), (∀ row ∈ L, row.length = k) →
      L.flatten.length = L.length * k
  | [], _, _ => by simp
  | row :: rest, k, h => by
    have hr : row.length = k := h row (by simp)
    have ih := flatten_length_const rest k (fun q hq => h q (by simp [hq]))
    simp [hr, ih]
    ring

theorem readRows_append' {rows : List (List Nat)} {n : Nat} (hn : rows.length = n)
    (h : ∀ row ∈ rows, row.length = 10) (r : List Nat) :
    readRows n (rows.flatten ++ r) = (rows, r) := hn ▸ readRows_append rows r h

theorem writeValues_eq {s : Scene} (h1 : s.fixture_channel_values.length = 16)
    (h2 : ∀ row ∈ s.fixture_channel_values, row.length = 10) :
    s.writeValues = s.fixture_channel_values.flatten := by
  unfold Scene.writeValues
  have hinner : (List.range 16).map
      (fun f => (List.range 10).map fun c => (s.fixture_channel_values.getD f []).getD c 0)
      = (List.range 16).map (fun f => s.fixture_channel_values.getD f []) := by
    apply List.map_congr_left
    intro f hf
    have hf16 : f < 16 := List.mem_range.mp hf
    have hrow : (s.fixture_channel_values.getD f []).length = 10 :=
      h2 _ (getD_mem_of_lt _ [] (by omega))
    conv_rhs => rw [← map_getD_range (s.fixture_channel_values.getD f []) 0]
    rw [hrow]
  rw [hinner]
  congr 1
  conv_rhs => rw [← map_getD_range s.fixture_channel_values []]
  rw [h1]

theorem serialize_length {s : Scene} (hs : sceneOk s) : s.serialize_to.length = 184 := by
  obtain ⟨h1, h2, hact, hf1, hb1, hnv, hf2, hb2⟩ := hs
  unfold Scene.serialize_to
  rw [writeValues_eq h1 (fun row hr => (h2 row hr).1)]
  have hv : s.fixture_channel_values.flatten.length = 160 := by
    rw [flatten_length_const s.fixture_channel_values 10 (fun row hr => (h2 row hr).1), h1]
  simp [writeActive_length, hf1, hf2, hv]

theorem parse_serialize {s : Scene} (hs : sceneOk s) (r : List Nat) :
    Scene.parse_from (s.serialize_to ++ r) = some (s, r) := by
  obtain ⟨h1, h2, hact, hf1, hb1, hnv, hf2, hb2⟩ := hs
  unfold Scene.parse_from Scene.serialize_to
  rw [writeValues_eq h1 (fun row hr => (h2 row hr).1)]
  simp only [List.append_assoc]
  rw [readRows_append' h1 (fun row hr => (h2 row hr).1)]
  simp only [readBytes_append (writeActive_length s), readBytes_append hf1,
    List.singleton_append, readByte_cons, readBytes_append hf2,
    parseActive_writeActive hact]


theorem parse_from_split {s : List Nat} (h : 183 ≤ s.length) :
    Scene.parse_from s
      = some ({ fixture_channel_values := (readRows 16 s).1,
                fixture_channel_active := parseActive ((s.drop 160).take 20),
                mystery_flags_1 := (s.drop 180).take 2,
                number_of_values := (s.drop 182).getD 0 0,
                mystery_flags_2 := (s.drop 183).take 1 }, s.drop 184) := by
  unfold Scene.parse_from
  rcases hrr : readRows 16 s with ⟨rows, s1⟩
  have hs1 : s1 = s.drop 160 := by
    have h0 := readRows_snd 16 s
    rw [hrr] at h0
    exact h0
  subst hs1
  simp only [readBytes]
  rw [readByte_of_length (by simp; omega)]
  simp only [List.drop_drop]

theorem parse_from_length {s : List Nat} (h : 183 ≤ s.length) :
    ∃ sc, Scene.parse_from s = some (sc, s.drop 184) :=
  ⟨_, parse_from_split h⟩

/-! ### Section loop lemmas -/

theorem readScenesList_step {n : Nat} {s s1 s2 : List Nat} {sc : Scene} {scs : List Scene}
    (h1 : Scene.parse_from s = some (sc, s1)) (h2 : readScenesList n s1 = some (scs, s2)) :
    readScenesList (n + 1) s = some (sc :: scs, s2) := by
  rw [readScenesList, h1, Option.some_bind, h2, Option.some_bind]

theorem readScenesList_append : ∀ (scenes : List Scene), (∀ sc ∈ scenes, sceneOk sc) →
    ∀ (r : List Nat),
      readScenesList scenes.length ((scenes.map Scene.serialize_to).flatten ++ r)
        = some (scenes, r)
  | [], _, r => rfl
  | sc :: rest, h, r => by
    have hsc : sceneOk sc := h sc (List.mem_cons_self sc rest)
    have ih := readScenesList_append rest (fun q hq => h q (List.mem_cons_of_mem sc hq)) r
    rw [List.length_cons]
    exact readScenesList_step
      (by rw [List.map_cons, List.flatten_cons, List.append_assoc, parse_serialize hsc]) ih

theorem readScenesList_append' {scenes : List Scene} {n : Nat} (hn : scenes.length = n)
    (h : ∀ sc ∈ scenes, sceneOk sc) (r : List Nat) :
    readScenesList n ((scenes.map Scene.serialize_to).flatten ++ r) = some (scenes, r) :=
  hn ▸ readScenesList_append scenes h r

theorem readScenesList_length : ∀ (n : Nat) (s : List Nat), 184 * n ≤ s.length →
    ∃ scs, readScenesList n s = some (scs, s.drop (184 * n)) ∧ scs.length = n
  | 0, s, _ => ⟨[], rfl, rfl⟩
  | n + 1, s, h => by
    obtain ⟨sc, hsc⟩ := parse_from_length (s := s) (by omega)
    have h2 : 184 * n ≤ (s.drop 184).length := by
      simp only [List.length_drop]
      omega
    obtain ⟨scs, hscs, hlen⟩ := readScenesList_length n (s.drop 184) h2
    refine ⟨sc :: scs, ?_, by simp [hlen]⟩
    rw [readScenesList_step hsc hscs, List.drop_drop]
    have he : 184 + 184 * n = 184 * (n + 1) := by ring
    rw [he]

theorem readNames_snd : ∀ (n : Nat) (s : List Nat), (readNames n s).2 = s.drop (7 * n)
  | 0, s => by simp [readNames]
  | n + 1, s => by
    rw [readNames]
    simp only [readBytes, readNames_snd n, List.drop_drop]
    congr 1
    ring

theorem readNames_append : ∀ (names : List (List Nat)), (∀ nm ∈ names, nm.length = 7) →
    ∀ (r : List Nat), readNames names.length (names.flatten ++ r) = (names, r)
  | [], _, r => by simp [readNames]
  | nm :: rest, h, r => by
    have hnm : nm.length = 7 := h nm (List.mem_cons_self nm rest)
    have ih := readNames_append rest (fun q hq => h q (List.mem_cons_of_mem nm hq)) r
    rw [List.length_cons, readNames, List.flatten_cons, List.append_assoc,
      readBytes_append hnm]
    simp [ih]

theorem readDmxList_length : ∀ (n : Nat) (s : List Nat), n ≤ s.length →
    readDmxList n s = some ((s.take n).map classifyDmx, s.drop n)
  | 0, s, _ => rfl
  | n + 1, s, h => by
    cases s with
    | nil => simp at h
    | cons b t =>
      have ih := readDmxList_length n t (by simp at h; omega)
      rw [readDmxList, readByte_cons, Option.some_bind, ih, Option.some_bind]
      simp

theorem readChaseInfo_step {n : Nat} {s s2 : List Nat} {count : Nat} {chs : List Chase}
    (h1 : read16le s = some (count, s1)) (h2 : readChaseInfo n (s1.drop 1) = some (chs, s2)) :
    readChaseInfo (n + 1) s
      = some ({ Chase.default with step_count := count } :: chs, s2) := by
  rw [readChaseInfo, h1, Option.some_bind]
  show (readChaseInfo n (s1.drop 1)).bind _ = _
  rw [h2, Option.some_bind]

theorem readChaseInfo_triples : ∀ (ts : List (Nat × Nat × Nat)) (r : List Nat),
    readChaseInfo ts.length ((ts.map fun t => [t.1, t.2.1, t.2.2]).flatten ++ r)
      = some (ts.map fun t => { Chase.default with step_count := t.1 + t.2.1 * 256 }, r)
  | [], r => rfl
  | t :: rest, r => by
    have ih := readChaseInfo_triples rest r
    obtain ⟨a, b, c⟩ := t
    rw [List.length_cons, List.map_cons, List.flatten_cons]
    have h1 : read16le ([a, b, c] ++ ((rest.map fun t => [t.1, t.2.1, t.2.2]).flatten ++ r))
        = some (a + b * 256, c :: ((rest.map fun t => [t.1, t.2.1, t.2.2]).flatten ++ r)) := by
      simp [read16le]
    exact readChaseInfo_step h1 (by simpa using ih)

theorem readChaseInfo_length : ∀ (n : Nat) (s : List Nat), 3 * n ≤ s.length →
    ∃ chs, readChaseInfo n s = some (chs, s.drop (3 * n)) ∧ chs.length = n
  | 0, s, _ => ⟨[], rfl, rfl⟩
  | n + 1, s, h => by
    have h2 : 2 ≤ s.length := by omega
    have h3 : 3 * n ≤ ((s.drop 2).drop 1).length := by
      simp only [List.length_drop]
      omega
    obtain ⟨chs, hchs, hlen⟩ := readChaseInfo_length n ((s.drop 2).drop 1) h3
    refine ⟨{ Chase.default with step_count := s.getD 0 0 + s.getD 1 0 * 256 } :: chs, ?_,
      by simp [hlen]⟩
    rw [readChaseInfo_step (read16le_of_length h2) hchs]
    simp only [List.drop_drop]
    have he : 2 + 1 + 3 * n = 3 * (n + 1) := by ring
    rw [he]

theorem read16List_step {n : Nat} {s s2 : List Nat} {v : Nat} {l : List Nat}
    (h1 : read16le s = some (v, s1)) (h2 : read16List n s1 = some (l, s2)) :
    read16List (n + 1) s = some (v :: l, s2) := by
  rw [read16List, h1, Option.some_bind, h2, Option.some_bind]

theorem read16List_append : ∀ (vs : List Nat) (r : List Nat),
    read16List vs.length ((vs.map write16le).flatten ++ r) = some (vs, r)
  | [], r => rfl
  | v :: rest, r => by
    have ih := read16List_append rest r
    rw [List.length_cons]
    exact read16List_step
      (by rw [List.map_cons, List.flatten_cons, List.append_assoc, read16le_write16le]) ih

theorem read16List_append' {vs : List Nat} {n : Nat} (hn : vs.length = n) (r : List Nat) :
    read16List n ((vs.map write16le).flatten ++ r) = some (vs, r) :=
  hn ▸ read16List_append vs r

theorem read16List_length : ∀ (n : Nat) (s : List Nat), 2 * n ≤ s.length →
    ∃ l, read16List n s = some (l, s.drop (2 * n)) ∧ l.length = n
  | 0, s, _ => ⟨[], rfl, rfl⟩
  | n + 1, s, h => by
    have h2 : 2 ≤ s.length := by omega
    have h3 : 2 * n ≤ (s.drop 2).length := by
      simp only [List.length_drop]
      omega
    obtain ⟨l, hl, hlen⟩ := read16List_length n (s.drop 2) h3
    refine ⟨(s.getD 0 0 + s.getD 1 0 * 256) :: l, ?_, by simp [hlen]⟩
    rw [read16List_step (read16le_of_length h2) hl, List.drop_drop]
    have he : 2 + 2 * n = 2 * (n + 1) := by ring
    rw [he]

theorem readByteList_length : ∀ (n : Nat) (s : List Nat), n ≤ s.length →
    readByteList n s = some (s.take n, s.drop n)
  | 0, s, _ => rfl
  | n + 1, s, h => by
    cases s with
    | nil => simp at h
    | cons b t =>
      have ih := readByteList_length n t (by simp at h; omega)
      rw [readByteList, readByte_cons, Option.some_bind, ih, Option.some_bind]
      simp

theorem readByteList_append {bs : List Nat} {n : Nat} (hn : bs.length = n) (r : List Nat) :
    readByteList n (bs ++ r) = some (bs, r) := by
  have h := readByteList_length n (bs ++ r) (by simp [hn])
  rw [h]
  subst hn
  rw [List.take_append_of_le_length (by omega), List.drop_append_of_le_length (by omega)]
  simp

theorem readDimmerAssignments_step {n : Nat} {s s1 s2 : List Nat} {row : List Nat}
    {rows : List (List Nat)}
    (h1 : readByteList 10 s = some (row, s1))
    (h2 : readDimmerAssignments n s1 = some (rows, s2)) :
    readDimmerAssignments (n + 1) s = some (row :: rows, s2) := by
  rw [readDimmerAssignments, h1, Option.some_bind, h2, Option.some_bind]

theorem readDimmerAssignments_append : ∀ (rows : List (List Nat)),
    (∀ row ∈ rows, row.length = 10) → ∀ (r : List Nat),
    readDimmerAssignments rows.length (rows.flatten ++ r) = some (rows, r)
  | [], _, r => rfl
  | row :: rest, h, r => by
    have hrow : row.length = 10 := h row (List.mem_cons_self row rest)
    have ih := readDimmerAssignments_append rest (fun q hq => h q (List.mem_cons_of_mem row hq)) r
    rw [List.length_cons]
    exact readDimmerAssignments_step
      (by rw [List.flatten_cons, List.append_assoc, readByteList_append hrow]) ih

theorem readDimmerAssignments_length : ∀ (n : Nat) (s : List Nat), 10 * n ≤ s.length →
    ∃ rows, readDimmerAssignments n s = some (rows, s.drop (10 * n))
  | 0, s, _ => ⟨[], rfl⟩
  | n + 1, s, h => by
    have h2 : 10 ≤ s.length := by omega
    have h3 : 10 * n ≤ (s.drop 10).length := by
      simp only [List.length_drop]
      omega
    obtain ⟨rows, hrows⟩ := readDimmerAssignments_length n (s.drop 10) h3
    refine ⟨s.take 10 :: rows, ?_⟩
    rw [readDimmerAssignments_step (readByteList_length 10 s h2) hrows, List.drop_drop]
    have he : 10 + 10 * n = 10 * (n + 1) := by ring
    rw [he]

theorem readChaseStepAssignments_step {ch : Chase} {rest : List Chase} {s s1 s2 : List Nat}
    {ids : List Nat} {chs : List Chase}
    (h1 : read16List 2000 s = some (ids, s1))
    (h2 : readChaseStepAssignments rest s1 = some (chs, s2)) :
    readChaseStepAssignments (ch :: rest) s
      = some ({ ch with step_ids := ids } :: chs, s2) := by
  rw [readChaseStepAssignments, h1, Option.some_bind, h2, Option.some_bind]

theorem readChaseStepAssignments_zip : ∀ (chases : List Chase) (idLists : List (List Nat)),
    chases.length = idLists.length → (∀ ids ∈ idLists, ids.length = 2000) →
    ∀ (r : List Nat),
    readChaseStepAssignments chases
        ((idLists.map fun ids => (ids.map write16le).flatten).flatten ++ r)
      = some (List.zipWith (fun ch ids => { ch with step_ids := ids }) chases idLists, r)
  | [], [], _, _, r => rfl
  | ch :: chs, ids :: rest, hlen, h, r => by
    have h2000 : ids.length = 2000 := h ids (List.mem_cons_self ids rest)
    have ih := readChaseStepAssignments_zip chs rest (by simpa using hlen)
      (fun q hq => h q (List.mem_cons_of_mem ids hq)) r
    rw [List.map_cons, List.flatten_cons, List.append_assoc]
    exact readChaseStepAssignments_step (read16List_append' h2000 _) ih

theorem readChaseStepAssignments_length : ∀ (chases : List Chase) (s : List Nat),
    4000 * chases.length ≤ s.length →
    ∃ chs, readChaseStepAssignments chases s = some (chs, s.drop (4000 * chases.length))
  | [], s, _ => ⟨[], rfl⟩
  | ch :: rest, s, h => by
    have h2 : 2 * 2000 ≤ s.length := by
      simp only [List.length_cons] at h
      omega
    obtain ⟨l, hl, hlen⟩ := read16List_length 2000 s h2
    have h3 : 4000 * rest.length ≤ (s.drop 4000).length := by
      simp only [List.length_drop, List.length_cons] at h ⊢
      omega
    obtain ⟨chs, hchs⟩ := readChaseStepAssignments_length rest (s.drop 4000) h3
    refine ⟨{ ch with step_ids := l } :: chs, ?_⟩
    have hl' : read16List 2000 s = some (l, s.drop 4000) := hl
    rw [readChaseStepAssignments_step hl' hchs, List.drop_drop, List.length_cons]
    have he : 4000 + 4000 * rest.length = 4000 * (rest.length + 1) := by ring
    rw [he]

/-! ### Writer-side lemmas -/

theorem map_getD_range' {α : Type} {l : List α} {n : Nat} (h : l.length = n) (d : α) :
    (List.range n).map (fun i => l.getD i d) = l :=
  h ▸ map_getD_range l d

theorem map_getD_range_map {α β : Type} (l : List α) (d : α) (f : α → β) {n : Nat}
    (h : l.length = n) :
    (List.range n).map (fun i => f (l.getD i d)) = l.map f := by
  subst h
  conv_rhs => rw [← map_getD_range l d]
  rw [List.map_map]
  rfl

theorem grid_write_eq {α : Type} (ll : List (List α)) (d : α) (h1 : ll.length = 16)
    (h2 : ∀ row ∈ ll, row.length = 10) :
    ((List.range 16).map fun f => (List.range 10).map fun c =>
      (ll.getD f []).getD c d).flatten = ll.flatten := by
  have hinner : (List.range 16).map
      (fun f => (List.range 10).map fun c => (ll.getD f []).getD c d)
      = (List.range 16).map (fun f => ll.getD f []) := by
    apply List.map_congr_left
    intro f hf
    have hf16 : f < 16 := List.mem_range.mp hf
    have hrow : (ll.getD f []).length = 10 := h2 _ (getD_mem_of_lt _ [] (by omega))
    conv_rhs => rw [← map_getD_range (ll.getD f []) d]
    rw [hrow]
  rw [hinner]
  congr 1
  exact map_getD_range' h1 []

theorem writeNames_eq {p : LedCommanderParser} (h : p.channel_names.length = 12) :
    writeNames p = p.channel_names.flatten := by
  unfold writeNames
  rw [map_getD_range' h []]

theorem writeDmxSection_eq {p : LedCommanderParser} (h : p.dmx_assignments.length = 512) :
    writeDmxSection p = p.dmx_assignments.map writeDmx := by
  unfold writeDmxSection
  exact map_getD_range_map _ none writeDmx h

theorem writeChaseInfo_eq {p : LedCommanderParser} (h : p.chases.length = 16) :
    writeChaseInfo p
      = (p.chases.map fun ch => write16le ch.step_count ++ [5]).flatten := by
  unfold writeChaseInfo
  congr 1
  exact map_getD_range_map _ Chase.default (fun ch => write16le ch.step_count ++ [5]) h

theorem writeChaseStepAssignments_eq {p : LedCommanderParser} (h : p.chases.length = 16)
    (h2 : ∀ ch ∈ p.chases, ch.step_ids.length = 2000) :
    writeChaseStepAssignments p
      = (p.chases.map fun ch => (ch.step_ids.map write16le).flatten).flatten := by
  unfold writeChaseStepAssignments
  congr 1
  rw [map_getD_range_map _ Chase.default
    (fun ch => ((List.range 2000).map fun j => write16le (ch.step_ids.getD j 0)).flatten) h]
  apply List.map_congr_left
  intro ch hch
  exact congrArg List.flatten (map_getD_range_map _ 0 write16le (h2 ch hch))

theorem writeVirtualDimmerModes_eq {p : LedCommanderParser}
    (h : p.virtual_dimmer_modes.length = 16) :
    writeVirtualDimmerModes p = p.virtual_dimmer_modes := by
  unfold writeVirtualDimmerModes
  exact map_getD_range' h 0

theorem writeVirtualDimmerAssignments_eq {p : LedCommanderParser}
    (h1 : p.virtual_dimmer_assignments.length = 16)
    (h2 : ∀ row ∈ p.virtual_dimmer_assignments, row.length = 10) :
    writeVirtualDimmerAssignments p = p.virtual_dimmer_assignments.flatten :=
  grid_write_eq _ 0 h1 h2

theorem writeScenes_eq {p : LedCommanderParser} (h1 : p.static_scenes.length = 16)
    (h2 : p.chase_steps.length = 2000) :
    writeScenes p = (p.static_scenes.map Scene.serialize_to).flatten
      ++ (p.chase_steps.map Scene.serialize_to).flatten := by
  unfold writeScenes
  rw [map_getD_range_map _ Scene.default Scene.serialize_to h1,
    map_getD_range_map _ Scene.default Scene.serialize_to h2]

theorem magicBytes_length : magicBytes.length = 512 := by
  rw [magicBytes, List.length_append, List.length_replicate]
  rfl

theorem flatten_map_length_const {α β : Type} (l : List α) (f : α → List β) (k : Nat)
    (h : ∀ a ∈ l, (f a).length = k) : (l.map f).flatten.length = l.length * k := by
  rw [flatten_length_const (l.map f) k ?_, List.length_map]
  intro row hrow
  obtain ⟨a, ha, rfl⟩ := List.mem_map.mp hrow
  exact h a ha

/-! ### Load composition lemmas -/

theorem orIndexError_some {α : Type} (a : α) : orIndexError (some a) = Except.ok a := rfl

theorem ok_bind {α β : Type} (a : α) (f : α → Except LoadError β) :
    (Except.ok a).bind f = f a := rfl

theorem from_file_magic_fail {input : List Nat} (h : input.take 512 ≠ magicBytes) :
    LedCommanderParser.from_file input = .error .invalidMagicNumber := by
  unfold LedCommanderParser.from_file
  rw [if_pos (show (readBytes 512 input).1 ≠ magicBytes from h)]

theorem from_file_sections {input : List Nat}
    {statics steps : List Scene} {names : List (List Nat)} {dmx : List DmxAssignment}
    {chases0 chases1 : List Chase} {modes : List Nat} {dimmer : List (List Nat)}
    {t0 s1 s2 s3 s4 s5 s8 s10 s11 : List Nat}
    (h0 : input.take 512 = magicBytes)
    (hd : input.drop 512 = t0)
    (h1 : readScenesList 16 t0 = some (statics, s1))
    (h2 : readScenesList 2000 s1 = some (steps, s2))
    (h3 : readNames 12 s2 = (names, s3))
    (h4 : readDmxList 512 s3 = some (dmx, s4))
    (h5 : readChaseInfo 16 s4 = some (chases0, s5))
    (h6 : s5.take 5 = acmeBytes)
    (h7 : readChaseStepAssignments chases0 (skipBytes 512 (s5.drop 5)) = some (chases1, s8))
    (h8 : readByteList 16 (s8.drop 3) = some (modes, s10))
    (h9 : readDimmerAssignments 16 s10 = some (dimmer, s11)) :
    LedCommanderParser.from_file input
      = .ok { channel_names := names, dmx_assignments := dmx,
              virtual_dimmer_modes := modes, virtual_dimmer_assignments := dimmer,
              static_scenes := statics, chase_steps := steps, chases := chases1 } := by
  unfold LedCommanderParser.from_file
  rw [if_neg (show ¬(readBytes 512 input).1 ≠ magicBytes by
    simp only [readBytes, ne_eq, h0, not_true_eq_false, not_false_eq_true])]
  rw [show (readBytes 512 input).2 = input.drop 512 from rfl, hd, h1]
  simp only [orIndexError_some, ok_bind, h2, h3, h4, h5]
  rw [if_neg (show ¬(readBytes 5 s5).1 ≠ acmeBytes by
    simp only [readBytes, ne_eq, h6, not_true_eq_false, not_false_eq_true])]
  rw [show (readBytes 5 s5).2 = s5.drop 5 from rfl]
  simp only [orIndexError_some, ok_bind, h7]
  rw [show (readBytes 3 s8).2 = s8.drop 3 from rfl]
  simp only [orIndexError_some, ok_bind, h8, h9]

theorem from_file_sections_acme_fail {input : List Nat}
    {statics steps : List Scene} {names : List (List Nat)} {dmx : List DmxAssignment}
    {chases0 : List Chase} {t0 s1 s2 s3 s4 s5 : List Nat}
    (h0 : input.take 512 = magicBytes)
    (hd : input.drop 512 = t0)
    (h1 : readScenesList 16 t0 = some (statics, s1))
    (h2 : readScenesList 2000 s1 = some (steps, s2))
    (h3 : readNames 12 s2 = (names, s3))
    (h4 : readDmxList 512 s3 = some (dmx, s4))
    (h5 : readChaseInfo 16 s4 = some (chases0, s5))
    (h6 : s5.take 5 ≠ acmeBytes) :
    LedCommanderParser.from_file input = .error .invalidAcmeMarker := by
  unfold LedCommanderParser.from_file
  rw [if_neg (show ¬(readBytes 512 input).1 ≠ magicBytes by
    simp only [readBytes, ne_eq, h0, not_true_eq_false, not_false_eq_true])]
  rw [show (readBytes 512 input).2 = input.drop 512 from rfl, hd, h1]
  simp only [orIndexError_some, ok_bind, h2, h3, h4, h5]
  rw [if_pos (show (readBytes 5 s5).1 ≠ acmeBytes from h6)]

theorem from_file_ok_of_length {input : List Nat} (hlen : 436796 ≤ input.length)
    (h0 : input.take 512 = magicBytes)
    (h6 : (input.drop 372100).take 5 = acmeBytes) :
    ∃ p, LedCommanderParser.from_file input = Except.ok p := by
  obtain ⟨statics, h1, hstat16⟩ := readScenesList_length 16 (input.drop 512)
    (by simp only [List.length_drop]; omega)
  norm_num [List.drop_drop] at h1
  obtain ⟨steps, h2, hsteps⟩ := readScenesList_length 2000 (input.drop 3456)
    (by simp only [List.length_drop]; omega)
  norm_num [List.drop_drop] at h2
  have hsnd := readNames_snd 12 (input.drop 371456)
  norm_num [List.drop_drop] at hsnd
  have h3 : readNames 12 (input.drop 371456)
      = ((readNames 12 (input.drop 371456)).1, input.drop 371540) := by
    rw [← hsnd]
  have h4 := readDmxList_length 512 (input.drop 371540)
    (by simp only [List.length_drop]; omega)
  norm_num [List.drop_drop] at h4
  obtain ⟨chases0, h5, hch16⟩ := readChaseInfo_length 16 (input.drop 372052)
    (by simp only [List.length_drop]; omega)
  norm_num [List.drop_drop] at h5
  obtain ⟨chases1, h7⟩ := readChaseStepAssignments_length chases0 (input.drop 372617)
    (by simp only [List.length_drop, hch16]; omega)
  rw [hch16] at h7
  norm_num [List.drop_drop] at h7
  have hskip : skipBytes 512 ((input.drop 372100).drop 5) = input.drop 372617 := by
    rw [skipBytes_eq_drop]
    norm_num [List.drop_drop]
  rw [← hskip] at h7
  have h8 := readByteList_length 16 (input.drop 436620)
    (by simp only [List.length_drop]; omega)
  norm_num [List.drop_drop] at h8
  have h8' : readByteList 16 ((input.drop 436617).drop 3)
      = some ((input.drop 436620).take 16, input.drop 436636) := by
    norm_num [List.drop_drop]
    exact h8
  obtain ⟨dimmer, h9⟩ := readDimmerAssignments_length 16 (input.drop 436636)
    (by simp only [List.length_drop]; omega)
  norm_num [List.drop_drop] at h9
  exact ⟨_, from_file_sections h0 rfl h1 h2 h3 h4 h5 h6 h7 h8' h9⟩

theorem from_file_acme_fail_of_length {input : List Nat} (hlen : 372100 ≤ input.length)
    (h0 : input.take 512 = magicBytes)
    (h6 : (input.drop 372100).take 5 ≠ acmeBytes) :
    LedCommanderParser.from_file input = .error .invalidAcmeMarker := by
  obtain ⟨statics, h1, hstat16⟩ := readScenesList_length 16 (input.drop 512)
    (by simp only [List.length_drop]; omega)
  norm_num [List.drop_drop] at h1
  obtain ⟨steps, h2, hsteps⟩ := readScenesList_length 2000 (input.drop 3456)
    (by simp only [List.length_drop]; omega)
  norm_num [List.drop_drop] at h2
  have hsnd := readNames_snd 12 (input.drop 371456)
  norm_num [List.drop_drop] at hsnd
  have h3 : readNames 12 (input.drop 371456)
      = ((readNames 12 (input.drop 371456)).1, input.drop 371540) := by
    rw [← hsnd]
  have h4 := readDmxList_length 512 (input.drop 371540)
    (by simp only [List.length_drop]; omega)
  norm_num [List.drop_drop] at h4
  obtain ⟨chases0, h5, hch16⟩ := readChaseInfo_length 16 (input.drop 372052)
    (by simp only [List.length_drop]; omega)
  norm_num [List.drop_drop] at h5
  exact from_file_sections_acme_fail h0 rfl h1 h2 h3 h4 h5 h6

/-! ### Concrete zero-file facts -/

theorem prefixTake {α : Type} {A B : List α} {n : Nat} (h : A.length = n) :
    (A ++ B).take n = A := by
  subst h
  rw [List.take_append_of_le_length (Nat.le_refl _), List.take_length]

theorem prefixDrop {α : Type} {A B : List α} {n : Nat} (h : A.length = n) :
    (A ++ B).drop n = B := by
  subst h
  rw [List.drop_append_of_le_length (Nat.le_refl _), List.drop_length]
  rfl

theorem readNames_append' {names : List (List Nat)} {n : Nat} (hn : names.length = n)
    (h : ∀ nm ∈ names, nm.length = 7) (r : List Nat) :
    readNames n (names.flatten ++ r) = (names, r) :=
  hn ▸ readNames_append names h r

theorem readDmxList_append {bs : List Nat} {n : Nat} (hn : bs.length = n) (r : List Nat) :
    readDmxList n (bs ++ r) = some (bs.map classifyDmx, r) := by
  rw [readDmxList_length n (bs ++ r) (by simp [hn]), prefixTake hn, prefixDrop hn]

theorem readChaseInfo_triples' {ts : List (Nat × Nat × Nat)} {n : Nat} (hn : ts.length = n)
    (r : List Nat) :
    readChaseInfo n ((ts.map fun t => [t.1, t.2.1, t.2.2]).flatten ++ r)
      = some (ts.map fun t => { Chase.default with step_count := t.1 + t.2.1 * 256 }, r) :=
  hn ▸ readChaseInfo_triples ts r

theorem readDimmerAssignments_append' {rows : List (List Nat)} {n : Nat}
    (hn : rows.length = n) (h : ∀ row ∈ rows, row.length = 10) (r : List Nat) :
    readDimmerAssignments n (rows.flatten ++ r) = some (rows, r) :=
  hn ▸ readDimmerAssignments_append rows h r

theorem serialize_default : Scene.default.serialize_to = List.replicate 184 0 := by decide

theorem sceneOk_default : sceneOk Scene.default := by
  simp only [sceneOk, matrixOk]
  decide

theorem classifyDmx_zero : classifyDmx 0 = some (some 0, 0) := rfl

theorem acmeBytes_length : acmeBytes.length = 5 := rfl
/-- Loading any file whose decoded sections are all zero bytes — whatever the
chase reserved bytes, the two unconfirmed regions and the trailing region hold
— produces `zeroModel`. -/
theorem from_file_zeroish (rsv : Nat) (mystery rnd tail : List Nat)
    (hmy : mystery.length = 512) (hrnd : rnd.length = 3) :
    LedCommanderParser.from_file
      (magicBytes ++ (((List.replicate 16 Scene.default).map Scene.serialize_to).flatten ++ (((List.replicate 2000 Scene.default).map Scene.serialize_to).flatten ++ ((List.replicate 12 (List.replicate 7 0)).flatten ++ (List.replicate 512 0 ++ (((List.replicate 16 ((0, 0, rsv) : Nat × Nat × Nat)).map fun t => [t.1, t.2.1, t.2.2]).flatten ++ (acmeBytes ++ (mystery ++ (((List.replicate 16 (List.replicate 2000 0)).map fun ids => (ids.map write16le).flatten).flatten ++ (rnd ++ (List.replicate 16 0 ++ ((List.replicate 16 (List.replicate 10 0)).flatten ++ tail))))))))))))
      = Except.ok zeroModel := by
  have hdefs : ∀ sc ∈ List.replicate 16 Scene.default, sceneOk sc :=
    fun sc h => List.eq_of_mem_replicate h ▸ sceneOk_default
  have hdefs2 : ∀ sc ∈ List.replicate 2000 Scene.default, sceneOk sc :=
    fun sc h => List.eq_of_mem_replicate h ▸ sceneOk_default
  have h1 : readScenesList 16 (((List.replicate 16 Scene.default).map Scene.serialize_to).flatten ++ (((List.replicate 2000 Scene.default).map Scene.serialize_to).flatten ++ ((List.replicate 12 (List.replicate 7 0)).flatten ++ (List.replicate 512 0 ++ (((List.replicate 16 ((0, 0, rsv) : Nat × Nat × Nat)).map fun t => [t.1, t.2.1, t.2.2]).flatten ++ (acmeBytes ++ (mystery ++ (((List.replicate 16 (List.replicate 2000 0)).map fun ids => (ids.map write16le).flatten).flatten ++ (rnd ++ (List.replicate 16 0 ++ ((List.replicate 16 (List.replicate 10 0)).flatten ++ tail)))))))))))
      = some (List.replicate 16 Scene.default, ((List.replicate 2000 Scene.default).map Scene.serialize_to).flatten ++ ((List.replicate 12 (List.replicate 7 0)).flatten ++ (List.replicate 512 0 ++ (((List.replicate 16 ((0, 0, rsv) : Nat × Nat × Nat)).map fun t => [t.1, t.2.1, t.2.2]).flatten ++ (acmeBytes ++ (mystery ++ (((List.replicate 16 (List.replicate 2000 0)).map fun ids => (ids.map write16le).flatten).flatten ++ (rnd ++ (List.replicate 16 0 ++ ((List.replicate 16 (List.replicate 10 0)).flatten ++ tail)))))))))) :=
    readScenesList_append' (List.length_replicate _ _) hdefs _
  have h2 : readScenesList 2000 (((List.replicate 2000 Scene.default).map Scene.serialize_to).flatten ++ ((List.replicate 12 (List.replicate 7 0)).flatten ++ (List.replicate 512 0 ++ (((List.replicate 16 ((0, 0, rsv) : Nat × Nat × Nat)).map fun t => [t.1, t.2.1, t.2.2]).flatten ++ (acmeBytes ++ (mystery ++ (((List.replicate 16 (List.replicate 2000 0)).map fun ids => (ids.map write16le).flatten).flatten ++ (rnd ++ (List.replicate 16 0 ++ ((List.replicate 16 (List.replicate 10 0)).flatten ++ tail))))))))))
      = some (List.replicate 2000 Scene.default, (List.replicate 12 (List.replicate 7 0)).flatten ++ (List.replicate 512 0 ++ (((List.replicate 16 ((0, 0, rsv) : Nat × Nat × Nat)).map fun t => [t.1, t.2.1, t.2.2]).flatten ++ (acmeBytes ++ (mystery ++ (((List.replicate 16 (List.replicate 2000 0)).map fun ids => (ids.map write16le).flatten).flatten ++ (rnd ++ (List.replicate 16 0 ++ ((List.replicate 16 (List.replicate 10 0)).flatten ++ tail))))))))) :=
    readScenesList_append' (List.length_replicate _ _) hdefs2 _
  have h3 : readNames 12 ((List.replicate 12 (List.replicate 7 0)).flatten ++ (List.replicate 512 0 ++ (((List.replicate 16 ((0, 0, rsv) : Nat × Nat × Nat)).map fun t => [t.1, t.2.1, t.2.2]).flatten ++ (acmeBytes ++ (mystery ++ (((List.replicate 16 (List.replicate 2000 0)).map fun ids => (ids.map write16le).flatten).flatten ++ (rnd ++ (List.replicate 16 0 ++ ((List.replicate 16 (List.replicate 10 0)).flatten ++ tail)))))))))
      = (List.replicate 12 (List.replicate 7 0), List.replicate 512 0 ++ (((List.replicate 16 ((0, 0, rsv) : Nat × Nat × Nat)).map fun t => [t.1, t.2.1, t.2.2]).flatten ++ (acmeBytes ++ (mystery ++ (((List.replicate 16 (List.replicate 2000 0)).map fun ids => (ids.map write16le).flatten).flatten ++ (rnd ++ (List.replicate 16 0 ++ ((List.replicate 16 (List.replicate 10 0)).flatten ++ tail)))))))) :=
    readNames_append' (List.length_replicate _ _)
      (fun nm h => by rw [List.eq_of_mem_replicate h]; exact List.length_replicate _ _) _
  have h4 : readDmxList 512 (List.replicate 512 0 ++ (((List.replicate 16 ((0, 0, rsv) : Nat × Nat × Nat)).map fun t => [t.1, t.2.1, t.2.2]).flatten ++ (acmeBytes ++ (mystery ++ (((List.replicate 16 (List.replicate 2000 0)).map fun ids => (ids.map write16le).flatten).flatten ++ (rnd ++ (List.replicate 16 0 ++ ((List.replicate 16 (List.replicate 10 0)).flatten ++ tail))))))))
      = some (List.replicate 512 (some (some 0, 0)), ((List.replicate 16 ((0, 0, rsv) : Nat × Nat × Nat)).map fun t => [t.1, t.2.1, t.2.2]).flatten ++ (acmeBytes ++ (mystery ++ (((List.replicate 16 (List.replicate 2000 0)).map fun ids => (ids.map write16le).flatten).flatten ++ (rnd ++ (List.replicate 16 0 ++ ((List.replicate 16 (List.replicate 10 0)).flatten ++ tail))))))) := by
    have h := readDmxList_append (List.length_replicate 512 (0 : Nat))
      ((((List.replicate 16 ((0, 0, rsv) : Nat × Nat × Nat)).map fun t => [t.1, t.2.1, t.2.2]).flatten ++ (acmeBytes ++ (mystery ++ (((List.replicate 16 (List.replicate 2000 0)).map fun ids => (ids.map write16le).flatten).flatten ++ (rnd ++ (List.replicate 16 0 ++ ((List.replicate 16 (List.replicate 10 0)).flatten ++ tail))))))))
    rw [show (List.replicate 512 (0 : Nat)).map classifyDmx
        = List.replicate 512 (some (some 0, 0) : DmxAssignment) by
      rw [List.map_replicate, classifyDmx_zero]] at h
    exact h
  have h5 : readChaseInfo 16 (((List.replicate 16 ((0, 0, rsv) : Nat × Nat × Nat)).map fun t => [t.1, t.2.1, t.2.2]).flatten ++ (acmeBytes ++ (mystery ++ (((List.replicate 16 (List.replicate 2000 0)).map fun ids => (ids.map write16le).flatten).flatten ++ (rnd ++ (List.replicate 16 0 ++ ((List.replicate 16 (List.replicate 10 0)).flatten ++ tail)))))))
      = some (List.replicate 16 Chase.default, acmeBytes ++ (mystery ++ (((List.replicate 16 (List.replicate 2000 0)).map fun ids => (ids.map write16le).flatten).flatten ++ (rnd ++ (List.replicate 16 0 ++ ((List.replicate 16 (List.replicate 10 0)).flatten ++ tail)))))) := by
    have h := readChaseInfo_triples'
      (List.length_replicate 16 ((0, 0, rsv) : Nat × Nat × Nat))
      ((acmeBytes ++ (mystery ++ (((List.replicate 16 (List.replicate 2000 0)).map fun ids => (ids.map write16le).flatten).flatten ++ (rnd ++ (List.replicate 16 0 ++ ((List.replicate 16 (List.replicate 10 0)).flatten ++ tail)))))))
    rw [show ((List.replicate 16 ((0, 0, rsv) : Nat × Nat × Nat)).map
        fun t => { Chase.default with step_count := t.1 + t.2.1 * 256 })
        = List.replicate 16 Chase.default by rw [List.map_replicate]; rfl] at h
    exact h
  have h6 : ((acmeBytes ++ (mystery ++ (((List.replicate 16 (List.replicate 2000 0)).map fun ids => (ids.map write16le).flatten).flatten ++ (rnd ++ (List.replicate 16 0 ++ ((List.replicate 16 (List.replicate 10 0)).flatten ++ tail)))))) : List Nat).take 5 = acmeBytes := prefixTake acmeBytes_length
  have h7 : readChaseStepAssignments (List.replicate 16 Chase.default)
      (skipBytes 512 (((acmeBytes ++ (mystery ++ (((List.replicate 16 (List.replicate 2000 0)).map fun ids => (ids.map write16le).flatten).flatten ++ (rnd ++ (List.replicate 16 0 ++ ((List.replicate 16 (List.replicate 10 0)).flatten ++ tail)))))) : List Nat).drop 5))
      = some (List.replicate 16 Chase.default, rnd ++ (List.replicate 16 0 ++ ((List.replicate 16 (List.replicate 10 0)).flatten ++ tail))) := by
    have h := readChaseStepAssignments_zip (List.replicate 16 Chase.default)
      (List.replicate 16 (List.replicate 2000 0))
      (by rw [List.length_replicate, List.length_replicate])
      (fun ids h => by rw [List.eq_of_mem_replicate h]; exact List.length_replicate _ _)
      ((rnd ++ (List.replicate 16 0 ++ ((List.replicate 16 (List.replicate 10 0)).flatten ++ tail))))
    rw [List.zipWith_replicate'] at h
    rw [prefixDrop acmeBytes_length, skipBytes_eq_drop, prefixDrop hmy]
    exact h
  have h8 : readByteList 16 (((rnd ++ (List.replicate 16 0 ++ ((List.replicate 16 (List.replicate 10 0)).flatten ++ tail))) : List Nat).drop 3)
      = some (List.replicate 16 0, (List.replicate 16 (List.replicate 10 0)).flatten ++ tail) := by
    rw [prefixDrop hrnd]
    exact readByteList_append (List.length_replicate _ _) _
  have h9 : readDimmerAssignments 16 ((List.replicate 16 (List.replicate 10 0)).flatten ++ tail)
      = some (List.replicate 16 (List.replicate 10 0), tail) :=
    readDimmerAssignments_append' (List.length_replicate _ _)
      (fun row h => by rw [List.eq_of_mem_replicate h]; exact List.length_replicate _ _) _
  exact from_file_sections (prefixTake magicBytes_length) (prefixDrop magicBytes_length)
    h1 h2 h3 h4 h5 h6 h7 h8 h9

theorem replicate_append_append {α : Type} (a : α) (m n : Nat) (r : List α) :
    List.replicate m a ++ (List.replicate n a ++ r) = List.replicate (m + n) a ++ r := by
  rw [← List.append_assoc, ← List.replicate_add]

theorem getD_append_right {α : Type} {A B : List α} {n : Nat} (h : A.length = n)
    (k : Nat) (d : α) : (A ++ B).getD (n + k) d = B.getD k d := by
  subst h
  simp only [List.getD_eq_getElem?_getD, List.getElem?_append_right (by omega : A.length ≤ A.length + k)]
  have he : A.length + k - A.length = k := by omega
  rw [he]

theorem getD_replicate_lt {α : Type} {n k : Nat} (h : k < n) (a d : α) :
    (List.replicate n a).getD k d = a := by
  simp [List.getD_eq_getElem?_getD, List.getElem?_replicate, h]

theorem zeroFile_eq : zeroFile
    = magicBytes ++ (((List.replicate 16 Scene.default).map Scene.serialize_to).flatten ++ (((List.replicate 2000 Scene.default).map Scene.serialize_to).flatten ++ ((List.replicate 12 (List.replicate 7 0)).flatten ++ (List.replicate 512 0 ++ (((List.replicate 16 ((0, 0, 0) : Nat × Nat × Nat)).map fun t => [t.1, t.2.1, t.2.2]).flatten ++ (acmeBytes ++ (List.replicate 512 0 ++ (((List.replicate 16 (List.replicate 2000 0)).map fun ids => (ids.map write16le).flatten).flatten ++ (List.replicate 3 0 ++ (List.replicate 16 0 ++ ((List.replicate 16 (List.replicate 10 0)).flatten ++ List.replicate 88004 0))))))))))) := by
  have hb1 : ((List.replicate 16 Scene.default).map Scene.serialize_to).flatten
      = List.replicate 2944 (0 : Nat) := by
    rw [List.map_replicate, serialize_default, List.flatten_replicate_replicate]
  have hb2 : ((List.replicate 2000 Scene.default).map Scene.serialize_to).flatten
      = List.replicate 368000 (0 : Nat) := by
    rw [List.map_replicate, serialize_default, List.flatten_replicate_replicate]
  have hb3 : (List.replicate 12 (List.replicate 7 (0 : Nat))).flatten
      = List.replicate 84 (0 : Nat) := by
    rw [List.flatten_replicate_replicate]
  have hb5 : ((List.replicate 16 ((0, 0, 0) : Nat × Nat × Nat)).map
      fun t => [t.1, t.2.1, t.2.2]).flatten = List.replicate 48 (0 : Nat) := by
    rw [List.map_replicate]
    show (List.replicate 16 (List.replicate 3 (0 : Nat))).flatten = _
    rw [List.flatten_replicate_replicate]
  have hb8 : ((List.replicate 16 (List.replicate 2000 0)).map
      fun ids => (ids.map write16le).flatten).flatten = List.replicate 64000 (0 : Nat) := by
    rw [List.map_replicate]
    rw [show ((List.replicate 2000 (0 : Nat)).map write16le).flatten
        = List.replicate 4000 (0 : Nat) by
      rw [List.map_replicate, show write16le 0 = List.replicate 2 0 from rfl,
        List.flatten_replicate_replicate]]
    rw [List.flatten_replicate_replicate]
  have hb11 : (List.replicate 16 (List.replicate 10 (0 : Nat))).flatten
      = List.replicate 160 (0 : Nat) := by
    rw [List.flatten_replicate_replicate]
  rw [zeroFile, hb1, hb2, hb3, hb5, hb8, hb11]
  simp only [List.append_assoc, replicate_append_append]
  norm_num

theorem zeroFileShort_eq : zeroFileShort
    = magicBytes ++ (((List.replicate 16 Scene.default).map Scene.serialize_to).flatten ++ (((List.replicate 2000 Scene.default).map Scene.serialize_to).flatten ++ ((List.replicate 12 (List.replicate 7 0)).flatten ++ (List.replicate 512 0 ++ (((List.replicate 16 ((0, 0, 0) : Nat × Nat × Nat)).map fun t => [t.1, t.2.1, t.2.2]).flatten ++ (acmeBytes ++ (List.replicate 512 0 ++ (((List.replicate 16 (List.replicate 2000 0)).map fun ids => (ids.map write16le).flatten).flatten ++ (List.replicate 3 0 ++ (List.replicate 16 0 ++ ((List.replicate 16 (List.replicate 10 0)).flatten ++ ([] : List Nat)))))))))))) := by
  have hb1 : ((List.replicate 16 Scene.default).map Scene.serialize_to).flatten
      = List.replicate 2944 (0 : Nat) := by
    rw [List.map_replicate, serialize_default, List.flatten_replicate_replicate]
  have hb2 : ((List.replicate 2000 Scene.default).map Scene.serialize_to).flatten
      = List.replicate 368000 (0 : Nat) := by
    rw [List.map_replicate, serialize_default, List.flatten_replicate_replicate]
  have hb3 : (List.replicate 12 (List.replicate 7 (0 : Nat))).flatten
      = List.replicate 84 (0 : Nat) := by
    rw [List.flatten_replicate_replicate]
  have hb5 : ((List.replicate 16 ((0, 0, 0) : Nat × Nat × Nat)).map
      fun t => [t.1, t.2.1, t.2.2]).flatten = List.replicate 48 (0 : Nat) := by
    rw [List.map_replicate]
    show (List.replicate 16 (List.replicate 3 (0 : Nat))).flatten = _
    rw [List.flatten_replicate_replicate]
  have hb8 : ((List.replicate 16 (List.replicate 2000 0)).map
      fun ids => (ids.map write16le).flatten).flatten = List.replicate 64000 (0 : Nat) := by
    rw [List.map_replicate]
    rw [show ((List.replicate 2000 (0 : Nat)).map write16le).flatten
        = List.replicate 4000 (0 : Nat) by
      rw [List.map_replicate, show write16le 0 = List.replicate 2 0 from rfl,
        List.flatten_replicate_replicate]]
    rw [List.flatten_replicate_replicate]
  have hb11 : (List.replicate 16 (List.replicate 10 (0 : Nat))).flatten
      = List.replicate 160 (0 : Nat) := by
    rw [List.flatten_replicate_replicate]
  rw [zeroFileShort, hb1, hb2, hb3, hb5, hb8, hb11]
  simp only [List.append_assoc, List.append_nil, replicate_append_append]
  norm_num

/-- `from_file zeroFile = ok zeroModel`. -/
theorem from_file_zeroFile : LedCommanderParser.from_file zeroFile = Except.ok zeroModel :=
  (congrArg LedCommanderParser.from_file zeroFile_eq).trans
    (from_file_zeroish 0 (List.replicate 512 0) (List.replicate 3 0) (List.replicate 88004 0)
      (List.length_replicate _ _) (List.length_replicate _ _))

/-- `from_file zeroFileShort = ok zeroModel` even though the input is 436796
bytes, 88004 short of the full image. -/
theorem from_file_zeroFileShort :
    LedCommanderParser.from_file zeroFileShort = Except.ok zeroModel :=
  (congrArg LedCommanderParser.from_file zeroFileShort_eq).trans
    (from_file_zeroish 0 (List.replicate 512 0) (List.replicate 3 0) []
      (List.length_replicate _ _) (List.length_replicate _ _))

theorem zeroFileShort_length : zeroFileShort.length = 436796 := by
  rw [zeroFileShort, List.length_append, List.length_append, List.length_append,
    magicBytes_length, acmeBytes_length, List.length_replicate, List.length_replicate]

theorem zeroFile_length : zeroFile.length = 524800 := by
  rw [zeroFile, List.length_append, List.length_append, List.length_append,
    magicBytes_length, acmeBytes_length, List.length_replicate, List.length_replicate]

theorem getD_append_left {α : Type} {A B : List α} {k : Nat} (h : k < A.length) (d : α) :
    (A ++ B).getD k d = A.getD k d := by
  simp only [List.getD_eq_getElem?_getD, List.getElem?_append_left h]

theorem to_file_zeroModel_eq : zeroModel.to_file
    = magicBytes ++ (((List.replicate 16 Scene.default).map Scene.serialize_to).flatten ++ (((List.replicate 2000 Scene.default).map Scene.serialize_to).flatten ++ ((List.replicate 12 (List.replicate 7 0)).flatten ++ (List.replicate 512 0 ++ (((List.replicate 16 ((0, 0, 5) : Nat × Nat × Nat)).map fun t => [t.1, t.2.1, t.2.2]).flatten ++ (acmeBytes ++ (List.replicate 512 2 ++ (((List.replicate 16 (List.replicate 2000 0)).map fun ids => (ids.map write16le).flatten).flatten ++ ([75, 1, 0] ++ (List.replicate 16 0 ++ ((List.replicate 16 (List.replicate 10 0)).flatten ++ writeRest))))))))))) := by
  have hws : writeScenes zeroModel
      = ((List.replicate 16 Scene.default).map Scene.serialize_to).flatten
        ++ ((List.replicate 2000 Scene.default).map Scene.serialize_to).flatten :=
    writeScenes_eq
      (by rw [show zeroModel.static_scenes = List.replicate 16 Scene.default from rfl]
          exact List.length_replicate _ _)
      (by rw [show zeroModel.chase_steps = List.replicate 2000 Scene.default from rfl]
          exact List.length_replicate _ _)
  have hwn : writeNames zeroModel = (List.replicate 12 (List.replicate 7 0)).flatten :=
    writeNames_eq (p := zeroModel)
      (by rw [show zeroModel.channel_names = List.replicate 12 (List.replicate 7 0) from rfl]
          exact List.length_replicate _ _)
  have hwd : writeDmxSection zeroModel = List.replicate 512 0 := by
    rw [writeDmxSection_eq
        (by rw [show zeroModel.dmx_assignments = List.replicate 512 (some (some 0, 0)) from rfl]
            exact List.length_replicate _ _),
      show zeroModel.dmx_assignments = List.replicate 512 (some (some 0, 0)) from rfl,
      List.map_replicate, show writeDmx (some (some 0, 0)) = 0 from rfl]
  have hwc : writeChaseInfo zeroModel
      = ((List.replicate 16 ((0, 0, 5) : Nat × Nat × Nat)).map
          fun t => [t.1, t.2.1, t.2.2]).flatten := by
    rw [writeChaseInfo_eq (p := zeroModel)
        (by rw [show zeroModel.chases = List.replicate 16 Chase.default from rfl]
            exact List.length_replicate _ _),
      show zeroModel.chases = List.replicate 16 Chase.default from rfl,
      List.map_replicate, List.map_replicate]
    rfl
  have hcs : writeChaseStepAssignments zeroModel
      = ((List.replicate 16 (List.replicate 2000 0)).map
          fun ids => (ids.map write16le).flatten).flatten := by
    rw [writeChaseStepAssignments_eq (p := zeroModel)
        (by rw [show zeroModel.chases = List.replicate 16 Chase.default from rfl]
            exact List.length_replicate _ _)
        (fun ch h => by
          rw [List.eq_of_mem_replicate h,
            show Chase.default.step_ids = List.replicate 2000 0 from rfl]
          exact List.length_replicate _ _),
      show zeroModel.chases = List.replicate 16 Chase.default from rfl,
      List.map_replicate, List.map_replicate]
    rfl
  have hwm : writeVirtualDimmerModes zeroModel = List.replicate 16 0 := by
    rw [writeVirtualDimmerModes_eq (p := zeroModel)
      (by rw [show zeroModel.virtual_dimmer_modes = List.replicate 16 0 from rfl]
          exact List.length_replicate _ _)]
    rfl
  have hwa : writeVirtualDimmerAssignments zeroModel
      = (List.replicate 16 (List.replicate 10 0)).flatten := by
    rw [writeVirtualDimmerAssignments_eq (p := zeroModel)
      (by rw [show zeroModel.virtual_dimmer_assignments
            = List.replicate 16 (List.replicate 10 0) from rfl]
          exact List.length_replicate _ _)
      (fun row h => by rw [List.eq_of_mem_replicate h]; exact List.length_replicate _ _)]
    rfl
  rw [LedCommanderParser.to_file, hws, hwn, hwd, hwc, hcs, hwm, hwa]
  simp only [List.append_assoc]

/-- Saving the zero model and loading the result round-trips. -/
theorem from_file_to_file_zeroModel :
    LedCommanderParser.from_file zeroModel.to_file = Except.ok zeroModel :=
  (congrArg LedCommanderParser.from_file to_file_zeroModel_eq).trans
    (from_file_zeroish 5 (List.replicate 512 2) [75, 1, 0] writeRest
      (List.length_replicate _ _) rfl)

/-- The canonical writer output differs from the all-zero file: the chase-info
reserved byte at offset 0x5AD56 is rewritten as `0x05` where `zeroFile` holds
`0x00`. -/
theorem to_file_zeroModel_ne_zeroFile : zeroModel.to_file ≠ zeroFile := by
  intro h
  have hcongr : zeroModel.to_file.getD 372054 0 = zeroFile.getD 372054 0 := by rw [h]
  have hb1 : ((List.replicate 16 Scene.default).map Scene.serialize_to).flatten
      = List.replicate 2944 (0 : Nat) := by
    rw [List.map_replicate, serialize_default, List.flatten_replicate_replicate]
  have hb2 : ((List.replicate 2000 Scene.default).map Scene.serialize_to).flatten
      = List.replicate 368000 (0 : Nat) := by
    rw [List.map_replicate, serialize_default, List.flatten_replicate_replicate]
  have hb3 : (List.replicate 12 (List.replicate 7 (0 : Nat))).flatten
      = List.replicate 84 (0 : Nat) := by
    rw [List.flatten_replicate_replicate]
  have hlhs : (zeroModel.to_file).getD 372054 0 = 5 := by
    rw [to_file_zeroModel_eq, hb1, hb2, hb3]
    rw [replicate_append_append, replicate_append_append, replicate_append_append]
    rw [show (2944 + (368000 + (84 + 512)) : Nat) = 371540 from rfl]
    rw [show (372054 : Nat) = 512 + 371542 from rfl,
      getD_append_right magicBytes_length,
      show (371542 : Nat) = 371540 + 2 from rfl,
      getD_append_right (List.length_replicate 371540 (0 : Nat))]
    rw [getD_append_left (by decide)]
    decide
  have hrhs : zeroFile.getD 372054 0 = 0 := by
    rw [zeroFile]
    rw [show (372054 : Nat) = 512 + 371542 from rfl]
    rw [List.append_assoc, List.append_assoc]
    rw [getD_append_right magicBytes_length]
    rw [getD_append_left (by rw [List.length_replicate]; omega)]

    rw [getD_replicate_lt (by omega)]
  rw [hlhs, hrhs] at hcongr
  exact absurd hcongr (by decide)

/-! ### Writer length lemmas -/

theorem writeScenes_length {p : LedCommanderParser} (h1 : p.static_scenes.length = 16)
    (ha : ∀ sc ∈ p.static_scenes, sceneOk sc) (h2 : p.chase_steps.length = 2000)
    (hb : ∀ sc ∈ p.chase_steps, sceneOk sc) : (writeScenes p).length = 370944 := by
  rw [writeScenes_eq h1 h2, List.length_append,
    flatten_map_length_const _ _ 184 (fun sc hsc => serialize_length (ha sc hsc)),
    flatten_map_length_const _ _ 184 (fun sc hsc => serialize_length (hb sc hsc)),
    h1, h2]

theorem writeNames_length {p : LedCommanderParser} (h : p.channel_names.length = 12)
    (h7 : ∀ nm ∈ p.channel_names, nm.length = 7) : (writeNames p).length = 84 := by
  rw [writeNames_eq h, flatten_length_const _ 7 h7, h]

theorem writeDmxSection_length (p : LedCommanderParser) :
    (writeDmxSection p).length = 512 := by
  rw [writeDmxSection, List.length_map, List.length_range]

theorem writeChaseInfo_length (p : LedCommanderParser) :
    (writeChaseInfo p).length = 48 := by
  rw [writeChaseInfo,
    flatten_map_length_const _ _ 3 (fun i _ => by rw [List.length_append]; rfl),
    List.length_range]

theorem writeChaseStepAssignments_length (p : LedCommanderParser) :
    (writeChaseStepAssignments p).length = 64000 := by
  rw [writeChaseStepAssignments,
    flatten_map_length_const _ _ 4000 (fun i _ => by
      rw [flatten_map_length_const _ _ 2 (fun j _ => by rw [write16le]; rfl),
        List.length_range]),
    List.length_range]

theorem writeVirtualDimmerModes_length (p : LedCommanderParser) :
    (writeVirtualDimmerModes p).length = 16 := by
  rw [writeVirtualDimmerModes, List.length_map, List.length_range]

theorem writeVirtualDimmerAssignments_length (p : LedCommanderParser) :
    (writeVirtualDimmerAssignments p).length = 160 := by
  rw [writeVirtualDimmerAssignments,
    flatten_map_length_const _ _ 10 (fun f _ => by rw [List.length_map, List.length_range]),
    List.length_range]

theorem writeRest_length : writeRest.length = 88004 := by
  rw [writeRest, List.length_cons, List.length_replicate]

/-- Under the in-range model hypotheses the serialized file is exactly
0x80200 = 524800 bytes. -/
theorem to_file_length {p : LedCommanderParser} (hp : parserOk p) :
    p.to_file.length = 524800 := by
  obtain ⟨hn, hnall, hd, _, hm, _, hv, hvall, hs1, hs1all, hs2, hs2all, hc, _⟩ := hp
  rw [LedCommanderParser.to_file]
  simp only [List.length_append]
  rw [magicBytes_length, writeScenes_length hs1 hs1all hs2 hs2all,
    writeNames_length hn (fun nm h => (hnall nm h).1), writeDmxSection_length,
    writeChaseInfo_length, acmeBytes_length, List.length_replicate,
    writeChaseStepAssignments_length, writeVirtualDimmerModes_length,
    writeVirtualDimmerAssignments_length, writeRest_length]
  rfl

/-- The magic block opens the serialized file. -/
theorem to_file_take_512 (p : LedCommanderParser) : p.to_file.take 512 = magicBytes := by
  rw [LedCommanderParser.to_file]
  simp only [List.append_assoc]
  exact prefixTake magicBytes_length

/-- The acme marker sits at offset 0x5AD84 = 372100 of the serialized file. -/
theorem to_file_acme_position {p : LedCommanderParser} (hp : parserOk p) :
    (p.to_file.drop 372100).take 5 = acmeBytes := by
  obtain ⟨hn, hnall, hd, _, hm, _, hv, hvall, hs1, hs1all, hs2, hs2all, hc, _⟩ := hp
  have hsplit : p.to_file
      = (magicBytes ++ (writeScenes p ++ (writeNames p ++ (writeDmxSection p
          ++ writeChaseInfo p))))
        ++ (acmeBytes ++ (List.replicate 512 2 ++ (writeChaseStepAssignments p
          ++ ([75, 1, 0] ++ (writeVirtualDimmerModes p
          ++ (writeVirtualDimmerAssignments p ++ writeRest)))))) := by
    rw [LedCommanderParser.to_file]
    simp only [List.append_assoc]
  rw [hsplit, prefixDrop ?hlen]
  case hlen =>
    simp only [List.length_append]
    rw [magicBytes_length, writeScenes_length hs1 hs1all hs2 hs2all,
      writeNames_length hn (fun nm h => (hnall nm h).1), writeDmxSection_length,
      writeChaseInfo_length]
  exact prefixTake acmeBytes_length

/-! ### Model wellformedness and remaining codec facts -/

theorem chaseOk_default : chaseOk Chase.default := by
  refine ⟨List.length_replicate _ _, fun v hv => ?_, by decide⟩
  rw [List.eq_of_mem_replicate hv]
  decide

theorem parserOk_zeroModel : parserOk zeroModel := by
  refine ⟨List.length_replicate _ _,
    fun nm h => ⟨by rw [List.eq_of_mem_replicate h]; exact List.length_replicate _ _,
      fun v hv => ?_⟩,
    List.length_replicate _ _, fun a h => ?_,
    List.length_replicate _ _, fun v h => ?_,
    List.length_replicate _ _,
    fun row h => ⟨by rw [List.eq_of_mem_replicate h]; exact List.length_replicate _ _,
      fun v hv => ?_⟩,
    List.length_replicate _ _, fun sc h => List.eq_of_mem_replicate h ▸ sceneOk_default,
    List.length_replicate _ _, fun sc h => List.eq_of_mem_replicate h ▸ sceneOk_default,
    List.length_replicate _ _, fun ch h => List.eq_of_mem_replicate h ▸ chaseOk_default⟩
  · rw [List.eq_of_mem_replicate h] at hv
    rw [List.eq_of_mem_replicate hv]
    omega
  · rw [List.eq_of_mem_replicate h]
    exact ⟨by omega, by omega⟩
  · rw [List.eq_of_mem_replicate h]
    omega
  · rw [List.eq_of_mem_replicate h] at hv
    rw [List.eq_of_mem_replicate hv]
    omega

theorem zipWith_set_ids_self : ∀ (chases : List Chase),
    List.zipWith (fun ch ids => { ch with step_ids := ids }) chases
      (chases.map fun ch => ch.step_ids) = chases
  | [] => rfl
  | ch :: rest => by
    rw [List.map_cons, List.zipWith_cons_cons, zipWith_set_ids_self rest]

/-- Writing then re-reading the 16 × 2000 step-id lists restores every chase
verbatim, `step_count` included. -/
theorem read_write_chase_steps {p : LedCommanderParser} (hc : p.chases.length = 16)
    (h2 : ∀ ch ∈ p.chases, ch.step_ids.length = 2000) (r : List Nat) :
    readChaseStepAssignments p.chases (writeChaseStepAssignments p ++ r)
      = some (p.chases, r) := by
  rw [writeChaseStepAssignments_eq hc h2]
  rw [show (p.chases.map fun ch => (ch.step_ids.map write16le).flatten)
      = ((p.chases.map fun ch => ch.step_ids).map fun ids => (ids.map write16le).flatten) by
    rw [List.map_map]
    rfl]
  rw [readChaseStepAssignments_zip p.chases (p.chases.map fun ch => ch.step_ids)
    (by rw [List.length_map]) (fun ids h => by
      obtain ⟨ch, hch, rfl⟩ := List.mem_map.mp h
      exact h2 ch hch) r]
  rw [zipWith_set_ids_self]

/-! ### Row access and marker-position facts -/

theorem readRows_fst_getD : ∀ (n : Nat) (s : List Nat) (f : Nat), f < n →
    ((readRows n s).1).getD f [] = (s.drop (10 * f)).take 10
  | 0, _, _, h => absurd h (by omega)
  | n + 1, s, 0, _ => by
    rw [readRows]
    rfl
  | n + 1, s, f + 1, h => by
    rw [readRows]
    show ((readRows n (s.drop 10)).1).getD f [] = _
    rw [readRows_fst_getD n (s.drop 10) f (by omega), List.drop_drop]
    congr 2
    ring

theorem getD_take_of_lt {α : Type} {l : List α} {k n : Nat} (h : k < n) (d : α) :
    (l.take n).getD k d = l.getD k d := by
  simp only [List.getD_eq_getElem?_getD, List.getElem?_take]
  rw [if_pos h]

theorem getD_drop {α : Type} (l : List α) (m k : Nat) (d : α) :
    (l.drop m).getD k d = l.getD (m + k) d := by
  simp only [List.getD_eq_getElem?_getD, List.getElem?_drop]

theorem prefixDropAdd {α : Type} {A B : List α} {n : Nat} (h : A.length = n) (k : Nat) :
    (A ++ B).drop (n + k) = B.drop k := by
  subst h
  exact List.drop_append k

theorem getD_append_left_lt {α : Type} {A B : List α} {n k : Nat} (h : A.length = n)
    (hk : k < n) (d : α) : (A ++ B).getD k d = A.getD k d :=
  getD_append_left (by omega) d

theorem zeroFile_take_512 : zeroFile.take 512 = magicBytes := by
  rw [zeroFile]
  simp only [List.append_assoc]
  exact prefixTake magicBytes_length

theorem zeroFile_acme : (zeroFile.drop 372100).take 5 = acmeBytes := by
  rw [zeroFile]
  simp only [List.append_assoc]
  rw [show (372100 : Nat) = 512 + 371588 from rfl, prefixDropAdd magicBytes_length,
    prefixDrop (List.length_replicate _ _)]
  exact prefixTake acmeBytes_length

theorem zeroFileShort_take_512 : zeroFileShort.take 512 = magicBytes := by
  rw [zeroFileShort]
  simp only [List.append_assoc]
  exact prefixTake magicBytes_length

theorem zeroFileShort_acme : (zeroFileShort.drop 372100).take 5 = acmeBytes := by
  rw [zeroFileShort]
  simp only [List.append_assoc]
  rw [show (372100 : Nat) = 512 + 371588 from rfl, prefixDropAdd magicBytes_length,
    prefixDrop (List.length_replicate _ _)]
  exact prefixTake acmeBytes_length

/-! ### Claim theorems -/

/-- C4: Scene decode layout: the decoder reads, in order, 160 bytes of
row-major values, 20 bytes of active bits (LSB-first, bit `i` at
`(fixture, channel) = divmod (i, 10)`), 2 flag bytes, 1 value-count byte and
1 flag byte; the encoder writes the mirror image with the same bit mapping. -/
theorem c4_scene_decode_layout (vals act fa : List Nat) (nv fb : Nat) (rest : List Nat)
    (hv : vals.length = 160) (ha : act.length = 20) (hf : fa.length = 2) :
    (∃ sc, Scene.parse_from (vals ++ (act ++ (fa ++ ([nv, fb] ++ rest)))) = some (sc, rest) ∧
      (∀ f, f < 16 → ∀ c, c < 10 →
        (sc.fixture_channel_values.getD f []).getD c 0 = vals.getD (10 * f + c) 0) ∧
      (∀ i, i < 160 → getCell sc.fixture_channel_active (i / 10) (i % 10)
        = Nat.testBit (act.getD (i / 8) 0) (i % 8)) ∧
      sc.mystery_flags_1 = fa ∧ sc.number_of_values = nv ∧ sc.mystery_flags_2 = [fb]) ∧
    (∀ s : Scene, matrixOk s.fixture_channel_active →
      s.serialize_to = s.writeValues ++ (s.writeActive ++ (s.mystery_flags_1
        ++ ([s.number_of_values] ++ s.mystery_flags_2))) ∧
      s.writeActive.length = 20 ∧
      ∀ i, i < 160 → Nat.testBit (s.writeActive.getD (i / 8) 0) (i % 8)
        = getCell s.fixture_channel_active (i / 10) (i % 10)) := by
  constructor
  · have hlen : 183 ≤ (vals ++ (act ++ (fa ++ ([nv, fb] ++ rest)))).length := by
      simp only [List.length_append, List.length_cons]
      omega
    have hsplit := parse_from_split hlen
    have hrest : (vals ++ (act ++ (fa ++ ([nv, fb] ++ rest)))).drop 184 = rest := by
      rw [show (184 : Nat) = 160 + 24 from rfl, prefixDropAdd hv,
        show (24 : Nat) = 20 + 4 from rfl, prefixDropAdd ha,
        show (4 : Nat) = 2 + 2 from rfl, prefixDropAdd hf]
      rfl
    rw [hrest] at hsplit
    refine ⟨_, hsplit, ?_, ?_, ?_, ?_, ?_⟩
    · intro f hfx c hc
      show ((readRows 16 _).1.getD f []).getD c 0 = _
      rw [readRows_fst_getD 16 _ f (by omega), getD_take_of_lt hc, getD_drop,
        getD_append_left_lt hv (by omega)]
    · intro i hi
      show getCell (parseActive (List.take 20 (List.drop 160 _))) _ _ = _
      rw [prefixDrop hv, prefixTake ha]
      have hfc := getCell_parseActive ha (f := i / 10) (c := i % 10) (by omega) (by omega)
      rw [hfc]
      have he : 10 * (i / 10) + i % 10 = i := by omega
      rw [he]
    · show List.take 2 (List.drop 180 _) = fa
      rw [show (180 : Nat) = 160 + 20 from rfl, prefixDropAdd hv, prefixDrop ha]
      exact prefixTake hf
    · show (List.drop 182 _).getD 0 0 = nv
      rw [show (182 : Nat) = 160 + 22 from rfl, prefixDropAdd hv,
        show (22 : Nat) = 20 + 2 from rfl, prefixDropAdd ha, prefixDrop hf]
      rfl
    · show List.take 1 (List.drop 183 _) = [fb]
      rw [show (183 : Nat) = 160 + 23 from rfl, prefixDropAdd hv,
        show (23 : Nat) = 20 + 3 from rfl, prefixDropAdd ha,
        show (3 : Nat) = 2 + 1 from rfl, prefixDropAdd hf]
      rfl
  · intro s hact
    refine ⟨by rw [Scene.serialize_to]; simp only [List.append_assoc], writeActive_length s,
      fun i hi => ?_⟩
    have h8 : i / 8 < 20 := by omega
    rw [Scene.writeActive, getD_map_range _ h8, testBit_activeByte]
    have he : 8 * (i / 8) + i % 8 = i := by omega
    rw [he]
    have h4 : i % 8 < 8 := by omega
    simp [h4]

/-- C1: Scene round-trip: decoding the byte encoding of any in-range scene
(16×10 byte values, 16×10 active flags, 2 flag bytes, a value-count byte and
1 flag byte) restores the scene exactly, all fields preserved. -/
theorem c1_scene_roundtrip (s : Scene) (hs : sceneOk s) (r : List Nat) :
    Scene.parse_from (s.serialize_to ++ r) = some (s, r) :=
  parse_serialize hs r

theorem c1_scene_roundtrip_witness :
    sceneOk Scene.default ∧
      Scene.parse_from (Scene.default.serialize_to ++ [7]) = some (Scene.default, [7]) :=
  ⟨sceneOk_default, c1_scene_roundtrip Scene.default sceneOk_default [7]⟩

/-- C2: Marker gates are the only fatal load checks: on a full-size
0x80200-byte input, the load fails with `invalidMagicNumber` exactly when the
first 512 bytes are wrong, fails with `invalidAcmeMarker` exactly when the
magic is right but the 5 bytes at offset 372100 are wrong, and succeeds for
every full-size input with both markers valid (the trailing region is never
checked). -/
theorem c2_marker_gates (input : List Nat) (h : input.length = 524800) :
    (input.take 512 ≠ magicBytes →
      LedCommanderParser.from_file input = .error .invalidMagicNumber) ∧
    (input.take 512 = magicBytes → (input.drop 372100).take 5 ≠ acmeBytes →
      LedCommanderParser.from_file input = .error .invalidAcmeMarker) ∧
    (input.take 512 = magicBytes → (input.drop 372100).take 5 = acmeBytes →
      ∃ p, LedCommanderParser.from_file input = Except.ok p) ∧
    ((∃ p, LedCommanderParser.from_file input = Except.ok p) ↔
      (input.take 512 = magicBytes ∧ (input.drop 372100).take 5 = acmeBytes)) := by
  refine ⟨from_file_magic_fail, fun h0 h6 => from_file_acme_fail_of_length (by omega) h0 h6,
    fun h0 h6 => from_file_ok_of_length (by omega) h0 h6, ?_, ?_⟩
  · rintro ⟨p, hp⟩
    by_cases h0 : input.take 512 = magicBytes
    · by_cases h6 : (input.drop 372100).take 5 = acmeBytes
      · exact ⟨h0, h6⟩
      · rw [from_file_acme_fail_of_length (by omega) h0 h6] at hp
        exact absurd hp (by simp)
    · rw [from_file_magic_fail h0] at hp
      exact absurd hp (by simp)
  · rintro ⟨h0, h6⟩
    exact from_file_ok_of_length (by omega) h0 h6

theorem c2_marker_gates_witness :
    zeroFile.length = 524800 ∧ zeroFile.take 512 = magicBytes ∧
    (zeroFile.drop 372100).take 5 = acmeBytes ∧
    (∃ p, LedCommanderParser.from_file zeroFile = Except.ok p) :=
  ⟨zeroFile_length, zeroFile_take_512, zeroFile_acme,
    (c2_marker_gates zeroFile zeroFile_length).2.2.1 zeroFile_take_512 zeroFile_acme⟩

/-- C3: DMX classification: byte 0xA2 decodes to unassigned, 0xA1 to Aux1
(channel id 11), 0xA0 to Aux2 (channel id 10), any other byte to
`(b / 10, b % 10)`, and the encoder inverts the classification exactly; at
the section level the 512-entry loop applies this byte-for-byte. -/
theorem c3_dmx_classification (b : Nat) (hb : b < 256) (bs : List Nat)
    (hlen : bs.length = 512) :
    (classifyDmx 162 = none ∧ classifyDmx 161 = some (none, 11) ∧
      classifyDmx 160 = some (none, 10)) ∧
    (b = 162 ∨ b = 161 ∨ b = 160 ∨ classifyDmx b = some (some (b / 10), b % 10)) ∧
    writeDmx (classifyDmx b) = b ∧
    ((∀ v ∈ bs, v < 256) →
      readDmxList 512 bs = some (bs.map classifyDmx, []) ∧
      (bs.map classifyDmx).map writeDmx = bs) := by
  have hbyte : ∀ v : Nat, v < 256 → writeDmx (classifyDmx v) = v := by decide
  have hcase : b = 162 ∨ b = 161 ∨ b = 160 ∨ classifyDmx b = some (some (b / 10), b % 10) := by
    by_cases h2 : b = 162
    · exact Or.inl h2
    by_cases h1 : b = 161
    · exact Or.inr (Or.inl h1)
    by_cases h0 : b = 160
    · exact Or.inr (Or.inr (Or.inl h0))
    refine Or.inr (Or.inr (Or.inr ?_))
    rw [classifyDmx, if_neg h2, if_neg h1, if_neg h0]
  refine ⟨⟨rfl, rfl, rfl⟩, hcase, hbyte b hb, fun hall => ⟨?_, ?_⟩⟩
  · have h := readDmxList_length 512 bs (by omega)
    rw [List.take_of_length_le (by omega), List.drop_eq_nil_of_le (by omega)] at h
    exact h
  · rw [List.map_map]
    have : ∀ v ∈ bs, (writeDmx ∘ classifyDmx) v = id v := fun v hv => hbyte v (hall v hv)
    rw [List.map_congr_left this, List.map_id]

theorem c3_dmx_classification_witness :
    (37 : Nat) < 256 ∧ (List.replicate 512 37).length = 512 ∧
    classifyDmx 37 = some (some 3, 7) ∧ writeDmx (classifyDmx 37) = 37 ∧
    readDmxList 512 (List.replicate 512 37)
      = some (List.replicate 512 (some (some 3, 7)), []) := by
  have h := c3_dmx_classification 37 (by omega) (List.replicate 512 37)
    (List.length_replicate _ _)
  refine ⟨by omega, List.length_replicate _ _, rfl, h.2.2.1, ?_⟩
  have h2 := (h.2.2.2 (fun v hv => by rw [List.eq_of_mem_replicate hv]; omega)).1
  rw [List.map_replicate] at h2
  exact h2

theorem c4_scene_decode_layout_witness :
    ∃ sc, Scene.parse_from (List.replicate 160 9
        ++ (List.replicate 20 255 ++ ([1, 2] ++ ([3, 4] ++ [99])))) = some (sc, [99])
      ∧ sc.number_of_values = 3 ∧ sc.mystery_flags_1 = [1, 2]
      ∧ sc.mystery_flags_2 = [4] := by
  obtain ⟨sc, h1, _, _, h4, h5, h6⟩ := (c4_scene_decode_layout (List.replicate 160 9)
    (List.replicate 20 255) [1, 2] 3 4 [99] (List.length_replicate _ _)
    (List.length_replicate _ _) rfl).1
  exact ⟨sc, h1, h5, h4, h6⟩

/-- C5 counterexample: loading the all-zero-except-markers full-size file and
saving the result does not reproduce the file: the writer emits fixed
constants for the unconfirmed regions instead of the zeros it read. -/
theorem c5_full_roundtrip_counterexample :
    LedCommanderParser.from_file zeroFile = Except.ok zeroModel ∧
    zeroModel.to_file ≠ zeroFile ∧ zeroFile.length = 524800 :=
  ⟨from_file_zeroFile, to_file_zeroModel_ne_zeroFile, zeroFile_length⟩

/-- C5 (amended): for the synthetically constructed minimal valid file whose
unconfirmed regions already hold the writer's fixed constants (reserved bytes
`0x05`, the `0x02` block, `4B 01 00` and the `00`+`FF`-run trailing region)
and whose decoded sections are all zero, `save (load file) = file`
byte-for-byte. -/
theorem c5_full_roundtrip_amended :
    LedCommanderParser.from_file zeroModel.to_file = Except.ok zeroModel ∧
    (∀ p, LedCommanderParser.from_file zeroModel.to_file = Except.ok p →
      p.to_file = zeroModel.to_file) := by
  refine ⟨from_file_to_file_zeroModel, fun p hp => ?_⟩
  rw [from_file_to_file_zeroModel] at hp
  cases hp
  rfl

/-- C6: Chase codec: the header decoder reads a 16-bit little-endian step
count plus one reserved byte accepted whatever its value; the body decoder
reads exactly 2000 step ids per chase (128000 bytes for the 16 chases)
regardless of `step_count`, and encode followed by decode preserves all 2000
ids of every chase verbatim. -/
theorem c6_chase_codec (ts : List (Nat × Nat × Nat)) (hts : ts.length = 16)
    (p : LedCommanderParser) (hc : p.chases.length = 16)
    (h2 : ∀ ch ∈ p.chases, ch.step_ids.length = 2000) (r s : List Nat)
    (hs : 64000 ≤ s.length) :
    readChaseInfo 16 ((ts.map fun t => [t.1, t.2.1, t.2.2]).flatten ++ r)
      = some (ts.map fun t => { Chase.default with step_count := t.1 + t.2.1 * 256 }, r) ∧
    (∃ chs, readChaseStepAssignments p.chases s = some (chs, s.drop 64000)) ∧
    readChaseStepAssignments p.chases (writeChaseStepAssignments p ++ r)
      = some (p.chases, r) := by
  refine ⟨readChaseInfo_triples' hts r, ?_, read_write_chase_steps hc h2 r⟩
  have h := readChaseStepAssignments_length p.chases s (by rw [hc]; omega)
  rw [hc] at h
  norm_num at h
  exact h

theorem c6_chase_codec_witness :
    readChaseInfo 16 (((List.replicate 16 ((1, 0, 99) : Nat × Nat × Nat)).map
        fun t => [t.1, t.2.1, t.2.2]).flatten ++ [])
      = some ((List.replicate 16 ((1, 0, 99) : Nat × Nat × Nat)).map
          fun t => { Chase.default with step_count := t.1 + t.2.1 * 256 }, []) ∧
    (∃ chs, readChaseStepAssignments zeroModel.chases (List.replicate 64000 0)
      = some (chs, (List.replicate 64000 0).drop 64000)) ∧
    readChaseStepAssignments zeroModel.chases (writeChaseStepAssignments zeroModel ++ [])
      = some (zeroModel.chases, []) := by
  exact c6_chase_codec (List.replicate 16 ((1, 0, 99) : Nat × Nat × Nat))
    (List.length_replicate _ _) zeroModel
    (by rw [show zeroModel.chases = List.replicate 16 Chase.default from rfl]
        exact List.length_replicate _ _)
    (fun ch h => by
      rw [List.eq_of_mem_replicate h,
        show Chase.default.step_ids = List.replicate 2000 0 from rfl]
      exact List.length_replicate _ _)
    [] (List.replicate 64000 0) (by rw [List.length_replicate])

/-- C7 counterexample: a scene record is not 182 bytes: parsing a 200-byte
input leaves 16 bytes unconsumed (184 consumed), not 18. -/
theorem c7_record_width_counterexample :
    (Scene.parse_from (List.replicate 200 0)).map (fun q => q.2.length) = some 16 ∧
    (16 : Nat) ≠ 200 - 182 := by
  exact ⟨by decide, by decide⟩

/-- C7 (amended): during load the scene section is decoded as 2016 records of
184 bytes each (160 + 20 + 2 + 1 + 1): the codec emits 184 bytes per scene
and consumes exactly 184 input bytes per record. -/
theorem c7_record_width_amended (s : Scene) (hs : sceneOk s) (input : List Nat)
    (h : 184 ≤ input.length) :
    s.serialize_to.length = 184 ∧
    (∃ sc, Scene.parse_from input = some (sc, input.drop 184)) ∧
    (∀ n : Nat, 184 * n ≤ input.length →
      ∃ scs, readScenesList n input = some (scs, input.drop (184 * n)) ∧ scs.length = n)
      := by
  refine ⟨serialize_length hs, parse_from_length (by omega), fun n hn => ?_⟩
  exact readScenesList_length n input hn

theorem c7_record_width_amended_witness :
    sceneOk Scene.default ∧ 184 ≤ (List.replicate 400 (0 : Nat)).length ∧
    Scene.default.serialize_to.length = 184 ∧
    (∃ sc, Scene.parse_from (List.replicate 400 0)
      = some (sc, (List.replicate 400 0).drop 184)) := by
  have h := c7_record_width_amended Scene.default sceneOk_default (List.replicate 400 0)
    (by rw [List.length_replicate]; omega)
  exact ⟨sceneOk_default, by rw [List.length_replicate]; omega, h.1, h.2.1⟩

/-- C8 counterexample: the encoder can produce bytes in 0xA3–0xFF: byte 0xA3
decodes to fixture 16, channel 3 — a model value the loader itself creates —
and that assignment re-encodes to 0xA3 = 163 ∈ [0xA3, 0xFF]. -/
theorem c8_encoder_range_counterexample :
    classifyDmx 163 = some (some 16, 3) ∧ writeDmx (some (some 16, 3)) = 163 ∧
    (163 : Nat) ≥ 0xA3 ∧ (163 : Nat) ≤ 0xFF := by decide

/-- C8 (amended): for every DMX assignment within the spec's data model
(fixture 0–15, channel 0–9, or aux/unassigned) the encoder never produces a
byte in 0xA3–0xFF, and the decoder accepts every one of 512 input bytes
whatever their values. -/
theorem c8_encoder_range_amended (a : DmxAssignment) (h : dmxInRange a)
    (s : List Nat) (hs : 512 ≤ s.length) :
    writeDmx a < 0xA3 ∧ (∃ l, readDmxList 512 s = some (l, s.drop 512)) := by
  constructor
  · match a, h with
    | none, _ => decide
    | some (none, c), h =>
      rcases h with h | h <;> subst h <;> decide
    | some (some f, c), h =>
      obtain ⟨hf, hc⟩ := h
      rw [writeDmx, if_neg (by omega), if_neg (by omega)]
      simp only [Option.getD_some]
      omega
  · exact ⟨_, readDmxList_length 512 s (by omega)⟩

theorem c8_encoder_range_amended_witness :
    dmxInRange (some (some 15, 9)) ∧ writeDmx (some (some 15, 9)) < 0xA3 ∧
    (∃ l, readDmxList 512 (List.replicate 512 255)
      = some (l, (List.replicate 512 255).drop 512)) := by
  have hin : dmxInRange (some (some 15, 9)) :=
    show (15 : Nat) < 16 ∧ (9 : Nat) < 10 from ⟨by omega, by omega⟩
  have h := c8_encoder_range_amended (some (some 15, 9)) hin (List.replicate 512 255)
    (by rw [List.length_replicate])
  exact ⟨hin, h.1, h.2⟩

/-- C9 counterexample: the loader accepts a 436796-byte input — 88004 bytes
shorter than the 0x80200-byte format — and silently returns a full model, so
short inputs do not fail with a `TruncatedInput` error. -/
theorem c9_truncation_counterexample :
    LedCommanderParser.from_file zeroFileShort = Except.ok zeroModel ∧
    zeroFileShort.length = 436796 ∧ (436796 : Nat) < 524800 :=
  ⟨from_file_zeroFileShort, zeroFileShort_length, by omega⟩

/-- C9 (amended): there is no `TruncatedInput` error: any valid-marker input
of at least 436796 bytes loads successfully even though the format requires
524800, and cutting a scene short does not produce a partially-filled model
but an uncaught index error (modelled as `none`). -/
theorem c9_truncation_amended (input : List Nat) (h1 : 436796 ≤ input.length)
    (h0 : input.take 512 = magicBytes) (h6 : (input.drop 372100).take 5 = acmeBytes) :
    (∃ p, LedCommanderParser.from_file input = Except.ok p) ∧
    Scene.parse_from (List.replicate 170 0) = none :=
  ⟨from_file_ok_of_length h1 h0 h6, by decide⟩

theorem c9_truncation_amended_witness :
    436796 ≤ zeroFileShort.length ∧ zeroFileShort.take 512 = magicBytes ∧
    (zeroFileShort.drop 372100).take 5 = acmeBytes ∧
    (∃ p, LedCommanderParser.from_file zeroFileShort = Except.ok p) := by
  have h := c9_truncation_amended zeroFileShort (by rw [zeroFileShort_length])
    zeroFileShort_take_512 zeroFileShort_acme
  exact ⟨by rw [zeroFileShort_length], zeroFileShort_take_512, zeroFileShort_acme, h.1⟩

/-- C10: Save size invariant: for every model with in-range fields, save emits
exactly 0x80200 = 524800 bytes, in the fixed section order — the magic block
opens the file and the acme marker sits at offset 0x5AD84. -/
theorem c10_save_size (p : LedCommanderParser) (hp : parserOk p) :
    p.to_file.length = 524800 ∧ p.to_file.take 512 = magicBytes ∧
    (p.to_file.drop 372100).take 5 = acmeBytes ∧
    p.to_file = magicBytes ++ writeScenes p ++ writeNames p ++ writeDmxSection p
      ++ writeChaseInfo p ++ acmeBytes ++ List.replicate 512 2
      ++ writeChaseStepAssignments p ++ [75, 1, 0] ++ writeVirtualDimmerModes p
      ++ writeVirtualDimmerAssignments p ++ writeRest :=
  ⟨to_file_length hp, to_file_take_512 p, to_file_acme_position hp, rfl⟩

theorem c10_save_size_witness :
    parserOk zeroModel ∧ zeroModel.to_file.length = 524800 ∧
    zeroModel.to_file.take 512 = magicBytes := by
  have h := c10_save_size zeroModel parserOk_zeroModel
  exact ⟨parserOk_zeroModel, h.1, h.2.1⟩

end LedCommander
